import Mathlib

/-!
# GameSocket: hybrid TCP/UDP transport and packet codec

A shallow embedding of `src/net/game_socket.cpp`.  Every member function of
`GameSocket` becomes a function that takes the socket state and returns the
result together with the new state.  The collaborators whose code lives in
other files (the byte buffer, the packet registry, the cipher, the fragment
reassembler, the two OS sockets) are modelled from the specification or taken
as parameters (`Env`).  Every call the socket makes to one of them is recorded,
in order, in the field `calls` of the state, so that "is never invoked" and
"reads only from TCP" are statements about that record.
-/

namespace Globed

/-! ## Results -/

/-- Outcome of a fallible member function.  `ok` and `err` are the two values of
the C++ `Result`; `thrown` is a call that does not return a `Result` at all
because `Result::unwrap()` was applied to an `Err` value, which raises. -/
inductive Res (α : Type) where
  | ok (value : α)
  | err (message : String)
  | thrown (what : String)
  deriving DecidableEq, Repr

/-- Whether the call returned an error `Result` to its caller. -/
def Res.isErr {α : Type} : Res α → Bool
  | .err _ => true
  | _ => false

/-- Whether the call returned a success `Result` to its caller. -/
def Res.isOk {α : Type} : Res α → Bool
  | .ok _ => true
  | _ => false

/-! ## Binary buffer -/

/-- Modelled from the spec: the error a Binary Buffer read reports ("explicit
error on short reads"); the buffer's source file is not part of the sources. -/
inductive DecodeError where
  | NotEnoughData
  | Other (message : String)
  deriving DecidableEq, Repr

/-- Modelled from the spec: the text of a decode error (`ByteBuffer::strerror`,
`fmt::to_string`); the buffer's source file is not part of the sources. -/
def DecodeError.strerror : DecodeError → String
  | .NotEnoughData => "not enough data"
  | .Other message => message

/-- Modelled from the spec: the Binary Buffer, "a growable byte buffer with a
cursor, fixed-width integer read/write, and explicit error on short reads";
its source file is not part of the sources.  Bytes are naturals below 256. -/
structure ByteBuffer where
  data : List Nat := []
  position : Nat := 0
  deriving DecidableEq, Repr

namespace ByteBuffer

/-- Number of bytes held. -/
def size (b : ByteBuffer) : Nat := b.data.length

/-- The cursor. -/
def getPosition (b : ByteBuffer) : Nat := b.position

/-- Move the cursor. -/
def setPosition (b : ByteBuffer) (pos : Nat) : ByteBuffer := { b with position := pos }

/-- Set the size to `bytes`: cut, or fill with zero bytes.  The cursor stays. -/
def resize (b : ByteBuffer) (bytes : Nat) : ByteBuffer :=
  { b with data := b.data.take bytes ++ List.replicate (bytes - b.data.length) 0 }

/-- Enlarge by `bytes` zero bytes.  The cursor stays. -/
def grow (b : ByteBuffer) (bytes : Nat) : ByteBuffer := b.resize (b.data.length + bytes)

/-- Write `bytes` at the cursor: existing bytes under them are replaced, the
buffer is extended when they reach past its end, and the cursor moves behind
them. -/
def rawWrite (b : ByteBuffer) (bytes : List Nat) : ByteBuffer :=
  { data := b.data.take b.position ++ bytes ++ b.data.drop (b.position + bytes.length)
    position := b.position + bytes.length }

/-- Store `bytes` through a raw pointer to byte `offset` of the storage (what an
in-place cipher does): the size of the buffer and the cursor do not change. -/
def overwrite (b : ByteBuffer) (offset : Nat) (bytes : List Nat) : ByteBuffer :=
  { b with data :=
      (b.data.take offset ++ bytes ++ b.data.drop (offset + bytes.length)).take b.data.length }

/-- Wire bytes of an unsigned 16-bit integer (little-endian, the byte order the
spec documents); a wider value is cut to 16 bits. -/
def u16Bytes (v : Nat) : List Nat := [v % 256, v / 256 % 256]

/-- Wire bytes of an unsigned 32-bit integer (little-endian); a wider value,
such as a `size_t`, is cut to 32 bits. -/
def u32Bytes (v : Nat) : List Nat :=
  [v % 256, v / 256 % 256, v / 65536 % 256, v / 16777216 % 256]

/-- Wire bytes of a signed 32-bit integer: two's complement of `v`. -/
def i32Bytes (v : Int) : List Nat := u32Bytes (v % 4294967296).toNat

def writeU8 (b : ByteBuffer) (v : Nat) : ByteBuffer := b.rawWrite [v % 256]

def writeBool (b : ByteBuffer) (v : Bool) : ByteBuffer := b.writeU8 (if v then 1 else 0)

def writeU16 (b : ByteBuffer) (v : Nat) : ByteBuffer := b.rawWrite (u16Bytes v)

def writeU32 (b : ByteBuffer) (v : Nat) : ByteBuffer := b.rawWrite (u32Bytes v)

def writeI32 (b : ByteBuffer) (v : Int) : ByteBuffer := b.rawWrite (i32Bytes v)

/-- The bytes from the cursor to the end. -/
def remaining (b : ByteBuffer) : List Nat := b.data.drop b.position

def readU8 (b : ByteBuffer) : Except DecodeError (Nat × ByteBuffer) :=
  match b.remaining with
  | x :: _ => .ok (x, { b with position := b.position + 1 })
  | _ => .error .NotEnoughData

def readBool (b : ByteBuffer) : Except DecodeError (Bool × ByteBuffer) :=
  match b.readU8 with
  | .ok (x, b) => .ok (x != 0, b)
  | .error e => .error e

def readU16 (b : ByteBuffer) : Except DecodeError (Nat × ByteBuffer) :=
  match b.remaining with
  | x0 :: x1 :: _ => .ok (x0 + 256 * x1, { b with position := b.position + 2 })
  | _ => .error .NotEnoughData

def readU32 (b : ByteBuffer) : Except DecodeError (Nat × ByteBuffer) :=
  match b.remaining with
  | x0 :: x1 :: x2 :: x3 :: _ =>
    .ok (x0 + 256 * x1 + 65536 * x2 + 16777216 * x3, { b with position := b.position + 4 })
  | _ => .error .NotEnoughData

end ByteBuffer

/-! ## Packets, registry, cipher -/

/-- Modelled from the spec: `PacketHeader`, `{ id: u16, encrypted: bool }`, on the
wire `u16 id, u8 encrypted`; its source file is not part of the sources. -/
structure PacketHeader where
  id : Nat
  encrypted : Bool
  deriving DecidableEq, Repr

/-- Wire size of the header: `sizeof(u16) + sizeof(bool)`. -/
def PacketHeader.SIZE : Nat := 3

/-- Wire bytes of a header. -/
def PacketHeader.bytes (h : PacketHeader) : List Nat :=
  ByteBuffer.u16Bytes h.id ++ [if h.encrypted then 1 else 0]

/-- The member `writeValue<PacketHeader>` of the buffer. -/
def ByteBuffer.writePacketHeader (b : ByteBuffer) (h : PacketHeader) : ByteBuffer :=
  (b.writeU16 h.id).writeBool h.encrypted

/-- The member `readValue<PacketHeader>` of the buffer. -/
def ByteBuffer.readPacketHeader (b : ByteBuffer) :
    Except DecodeError (PacketHeader × ByteBuffer) :=
  match b.readU16 with
  | .error e => .error e
  | .ok (id, b) =>
    match b.readBool with
    | .error e => .error e
    | .ok (encrypted, b) => .ok ({ id := id, encrypted := encrypted }, b)

/-- Modelled from the spec: a `Packet`, the capability set
`{ id, isEncryptedByDefault, prefersTcp, encode(buffer), decode(buffer) }`; the
concrete packet classes are not part of the sources.  `fields` are the field
values of the object; `encode` and `decode` are the virtual members of its
class, `decode` giving the field values it read. -/
structure Packet (σ : Type) where
  getPacketId : Nat
  getEncrypted : Bool
  getUseTcp : Bool
  fields : σ
  encode : σ → ByteBuffer → ByteBuffer
  decode : σ → ByteBuffer → Except DecodeError σ

/-- Modelled from the spec: the Crypto Box, "in-place authenticated
encryption/decryption over a byte range, with a fixed per-message overhead";
its source file is not part of the sources.  `encryptInPlace` maps the plain
bytes of the region to the bytes it leaves there, `decryptInPlace` maps the
bytes of the region to the plain bytes it leaves at its start (the C++ call
returns their number), or fails. -/
structure CryptoBox where
  encryptInPlace : List Nat → List Nat
  decryptInPlace : List Nat → Except String (List Nat)

/-- The address of a peer. -/
abbrev NetworkAddress := Nat

/-- The calls a `GameSocket` makes to its collaborators. -/
inductive Call where
  | tcpConnect (address : NetworkAddress)
  | udpConnect (address : NetworkAddress)
  | tcpDisconnect
  | udpDisconnect
  | tcpSend (bytes : List Nat)
  | tcpSendAll (bytes : List Nat)
  | udpSend (bytes : List Nat)
  | udpSendTo (bytes : List Nat) (address : NetworkAddress)
  | tcpRecvExact (size : Nat)
  | udpReceive
  | udpPoll (timeoutMs : Int)
  | sysPoll (tcp udp : Bool) (timeoutMs : Int)
  | matchPacket (id : Nat)
  | encode (id : Nat)
  | decode (id : Nat) (payload : List Nat)
  | encryptInPlace (offset rawSize : Nat)
  | decryptInPlace (offset length : Nat)
  | pushFrameFromBuffer (bytes : List Nat)
  | clearFrames
  deriving DecidableEq, Repr

/-- What lives outside `game_socket.cpp` and is fixed for a run: the packet
registry (`matchPacket`), the cipher's overhead and constructor, the fragment
reassembler (state `ρ`), the marker bytes and the text of the last OS error. -/
structure Env (σ ρ : Type) where
  matchPacket : Nat → Option (Packet σ)
  PREFIX_LEN : Nat
  newBox : CryptoBox
  pushFrameFromBuffer : ρ → ByteBuffer → Except String (List Nat) × ρ
  cleared : ρ
  MARKER_CONN_INITIAL : Nat
  MARKER_CONN_RECOVERY : Nat
  MARKER_UDP_PACKET : Nat
  MARKER_UDP_FRAME : Nat
  lastErrorString : String

/-! ## Sockets -/

/-- The TCP stream socket: `inbound` are the bytes the peer delivers on the
stream, `outcomes` the results of the coming `connect`, `send` and `sendAll`
calls (success once the list is used up). -/
structure TcpSocket where
  connected : Bool := false
  inbound : List Nat := []
  outcomes : List (Except String Unit) := []

/-- What `udpSocket.receive` reports: the sender flag, the byte count (negative
on failure) and the bytes it stored in the receive buffer. -/
structure RecvResult where
  fromServer : Bool
  result : Int
  data : List Nat
  deriving DecidableEq, Repr

/-- The UDP socket: `connected` says whether it is open and associated with a
remote address, `inbound` are the coming results of `receive` (a failure once
the list is used up), `polls` those of `poll` (not readable once used up),
`outcomes` those of `connect` and `send`, `sendToOutcomes` the byte counts
`sendTo` reports (the whole buffer once used up). -/
structure UdpSocket where
  connected : Bool := false
  inbound : List RecvResult := []
  polls : List (Except String Bool) := []
  outcomes : List (Except String Unit) := []
  sendToOutcomes : List (Except String Nat) := []

/-- One return of the OS `poll`: its result (`-1` on failure) and the `POLLIN`
bit of the TCP and of the UDP descriptor. -/
structure SysPoll where
  result : Int
  tcp : Bool
  udp : Bool
  deriving DecidableEq, Repr

inductive PollResult where
  | None
  | Tcp
  | Udp
  | Both
  deriving DecidableEq, Repr

inductive Protocol where
  | Unspecified
  | Tcp
  | Udp
  deriving DecidableEq, Repr

structure ReceivedPacket (σ : Type) where
  packet : Option (Packet σ)
  fromConnected : Bool

/-- The state of a `GameSocket`: its members `tcpSocket`, `udpSocket`,
`udpBuffer`, `cryptoBox` and `dumpPackets`, and with them the coming returns of
the OS `poll` (nothing readable once used up), the record `calls` of the calls
made to collaborators, and the packet dumps written (`dumps`: id, bytes,
sending).  The receive scratch array `dataBuffer` is written before each use
and read nowhere else, so it is not part of the state. -/
structure GameSocket (σ ρ : Type) where
  tcpSocket : TcpSocket
  udpSocket : UdpSocket
  udpBuffer : ρ
  cryptoBox : Option CryptoBox
  dumpPackets : Bool
  sysPolls : List SysPoll
  calls : List Call
  dumps : List (Nat × List Nat × Bool)

def DATA_BUF_SIZE : Nat := 2 <<< 18

namespace GameSocket

variable {σ ρ : Type}

/-- Append a call to the record. -/
def record (self : GameSocket σ ρ) (c : Call) : GameSocket σ ρ :=
  { self with calls := self.calls ++ [c] }

/-- Modelled from the spec: `tcpSocket.recvExact`, "read exactly" `size` bytes
from the stream; a stream that ends before fails.  The socket's source file is
not part of the sources. -/
def tcpRecvExact (self : GameSocket σ ρ) (size : Nat) :
    Except String (List Nat) × GameSocket σ ρ :=
  let self := self.record (.tcpRecvExact size)
  if size ≤ self.tcpSocket.inbound.length then
    (.ok (self.tcpSocket.inbound.take size),
      { self with tcpSocket := { self.tcpSocket with inbound := self.tcpSocket.inbound.drop size } })
  else
    (.error "tcp stream ended before the requested bytes arrived",
      { self with tcpSocket := { self.tcpSocket with inbound := [] } })

/-- Modelled from the spec: `udpSocket.receive`, "receive one datagram"; the
socket's source file is not part of the sources. -/
def udpReceive (self : GameSocket σ ρ) : RecvResult × GameSocket σ ρ :=
  let self := self.record .udpReceive
  match self.udpSocket.inbound with
  | r :: rest => (r, { self with udpSocket := { self.udpSocket with inbound := rest } })
  | [] => ({ fromServer := false, result := -1, data := [] }, self)

/-- Modelled from the spec: `udpSocket.poll`, "poll the UDP socket alone"; the
socket's source file is not part of the sources. -/
def udpPoll (self : GameSocket σ ρ) (timeoutMs : Int) :
    Except String Bool × GameSocket σ ρ :=
  let self := self.record (.udpPoll timeoutMs)
  match self.udpSocket.polls with
  | r :: rest => (r, { self with udpSocket := { self.udpSocket with polls := rest } })
  | [] => (.ok false, self)

/-- The OS `poll` (`GLOBED_SOCKET_POLL`) on the descriptors named by `tcp` and
`udp`. -/
def sysPoll (self : GameSocket σ ρ) (tcp udp : Bool) (timeoutMs : Int) :
    SysPoll × GameSocket σ ρ :=
  let self := self.record (.sysPoll tcp udp timeoutMs)
  match self.sysPolls with
  | r :: rest => (r, { self with sysPolls := rest })
  | [] => ({ result := 0, tcp := false, udp := false }, self)

/-- The member `dumpPacket`: writes the bytes of the buffer to a file. -/
def dumpPacket (self : GameSocket σ ρ) (id : Nat) (buffer : ByteBuffer) (sending : Bool) :
    GameSocket σ ρ :=
  { self with dumps := self.dumps ++ [(id, buffer.data, sending)] }

/-- Take the next outcome of a fallible socket call (success once used up). -/
def nextOutcome : List (Except String Unit) → Except String Unit × List (Except String Unit)
  | r :: rest => (r, rest)
  | [] => (.ok (), [])

/-- Modelled from the spec: `tcpSocket.connect`, "opens a TCP stream"; the
socket's source file is not part of the sources. -/
def tcpConnect (self : GameSocket σ ρ) (address : NetworkAddress) :
    Except String Unit × GameSocket σ ρ :=
  let self := self.record (.tcpConnect address)
  match nextOutcome self.tcpSocket.outcomes with
  | (.ok u, rest) =>
    (.ok u, { self with tcpSocket := { self.tcpSocket with connected := true, outcomes := rest } })
  | (.error e, rest) =>
    (.error e, { self with tcpSocket := { self.tcpSocket with outcomes := rest } })

/-- Modelled from the spec: `tcpSocket.send`; the socket's source file is not
part of the sources. -/
def tcpSend (self : GameSocket σ ρ) (bytes : List Nat) : Except String Unit × GameSocket σ ρ :=
  let self := self.record (.tcpSend bytes)
  match nextOutcome self.tcpSocket.outcomes with
  | (r, rest) => (r, { self with tcpSocket := { self.tcpSocket with outcomes := rest } })

/-- Modelled from the spec: `tcpSocket.sendAll`; the socket's source file is not
part of the sources. -/
def tcpSendAll (self : GameSocket σ ρ) (bytes : List Nat) :
    Except String Unit × GameSocket σ ρ :=
  let self := self.record (.tcpSendAll bytes)
  match nextOutcome self.tcpSocket.outcomes with
  | (r, rest) => (r, { self with tcpSocket := { self.tcpSocket with outcomes := rest } })

/-- Modelled from the spec: `tcpSocket.disconnect`, "closes" the socket; the
socket's source file is not part of the sources. -/
def tcpDisconnect (self : GameSocket σ ρ) : GameSocket σ ρ :=
  { self.record .tcpDisconnect with tcpSocket := { self.tcpSocket with connected := false } }

/-- Modelled from the spec: `udpSocket.connect`, "a UDP association to
`address`"; the socket's source file is not part of the sources. -/
def udpConnect (self : GameSocket σ ρ) (address : NetworkAddress) :
    Except String Unit × GameSocket σ ρ :=
  let self := self.record (.udpConnect address)
  match nextOutcome self.udpSocket.outcomes with
  | (.ok u, rest) =>
    (.ok u, { self with udpSocket := { self.udpSocket with connected := true, outcomes := rest } })
  | (.error e, rest) =>
    (.error e, { self with udpSocket := { self.udpSocket with outcomes := rest } })

/-- Modelled from the spec: `udpSocket.send`; the socket's source file is not
part of the sources. -/
def udpSend (self : GameSocket σ ρ) (bytes : List Nat) : Except String Unit × GameSocket σ ρ :=
  let self := self.record (.udpSend bytes)
  match nextOutcome self.udpSocket.outcomes with
  | (r, rest) => (r, { self with udpSocket := { self.udpSocket with outcomes := rest } })

/-- Modelled from the spec: `udpSocket.sendTo`, which reports "the number of
bytes actually transmitted"; the socket's source file is not part of the
sources. -/
def udpSendTo (self : GameSocket σ ρ) (bytes : List Nat) (address : NetworkAddress) :
    Except String Nat × GameSocket σ ρ :=
  let self := self.record (.udpSendTo bytes address)
  match self.udpSocket.sendToOutcomes with
  | r :: rest => (r, { self with udpSocket := { self.udpSocket with sendToOutcomes := rest } })
  | [] => (.ok bytes.length, self)

/-- Modelled from the spec: `udpSocket.disconnect`, "closes" the socket; the
socket's source file is not part of the sources. -/
def udpDisconnect (self : GameSocket σ ρ) : GameSocket σ ρ :=
  { self.record .udpDisconnect with udpSocket := { self.udpSocket with connected := false } }

/-! ## The members of `GameSocket` -/

def connect (env : Env σ ρ) (self : GameSocket σ ρ) (address : NetworkAddress)
    (isRecovering : Bool) : Res Unit × GameSocket σ ρ :=
  match self.tcpConnect address with
  | (.error e, self) => (.err e, self)
  | (.ok _, self) =>
    match self.udpConnect address with
    | (.error e, self) => (.err e, self)
    | (.ok _, self) =>
      -- send a magic byte telling the server whether we are recovering or not
      let byte := if isRecovering then env.MARKER_CONN_RECOVERY else env.MARKER_CONN_INITIAL
      match self.tcpSend [byte] with
      | (.error e, self) => (.err e, self)
      | (.ok _, self) => (.ok (), self)

def disconnect (env : Env σ ρ) (self : GameSocket σ ρ) : GameSocket σ ρ :=
  let self := self.tcpDisconnect
  let self := self.udpDisconnect
  { self.record .clearFrames with udpBuffer := env.cleared }

def isConnected (self : GameSocket σ ρ) : Bool :=
  self.tcpSocket.connected

def cleanupBox (self : GameSocket σ ρ) : GameSocket σ ρ :=
  { self with cryptoBox := none }

def createBox (env : Env σ ρ) (self : GameSocket σ ρ) : GameSocket σ ρ :=
  { self with cryptoBox := some env.newBox }

def togglePacketLogging (self : GameSocket σ ρ) (state : Bool) : GameSocket σ ρ :=
  { self with dumpPackets := state }

/-- The last step of `encodePacket` ("write length"): with TCP framing the four
bytes reserved at `startPos` receive the size of what follows them, and the
cursor returns to where it was. -/
def writeLength (buffer : ByteBuffer) (startPos : Nat) (tcp : Bool) : ByteBuffer :=
  if tcp then
    let lastPos := buffer.getPosition
    let packetSize := buffer.size - 4 - startPos
    let buffer := buffer.setPosition startPos
    let buffer := buffer.writeU32 packetSize
    buffer.setPosition lastPos
  else buffer

def encodePacket (env : Env σ ρ) (self : GameSocket σ ρ) (packet : Packet σ)
    (buffer : ByteBuffer) (tcp : Bool) : Res Unit × ByteBuffer × GameSocket σ ρ :=
  let header : PacketHeader :=
    { id := packet.getPacketId, encrypted := packet.getEncrypted }
  -- reserve space for packet length when using TCP
  let startPos := buffer.getPosition
  let buffer := if tcp then buffer.writeU32 0 else buffer
  let buffer := buffer.writePacketHeader header
  let self := self.record (.encode packet.getPacketId)
  let buffer := packet.encode packet.fields buffer
  if packet.getEncrypted then
    match self.cryptoBox with
    | none =>
      (.err "attempted to encrypt a packet when no cryptobox is initialized", buffer, self)
    | some cryptoBox =>
      -- grow the vector by CryptoBox::PREFIX_LEN extra bytes to do in-place encryption
      let buffer := buffer.grow env.PREFIX_LEN
      let headerSize := PacketHeader.SIZE + (if tcp then 4 else 0)
      let rawSize := buffer.size - headerSize - startPos - env.PREFIX_LEN
      let self := self.record (.encryptInPlace (startPos + headerSize) rawSize)
      let buffer := buffer.overwrite (startPos + headerSize)
        (cryptoBox.encryptInPlace ((buffer.data.drop (startPos + headerSize)).take rawSize))
      (.ok (), writeLength buffer startPos tcp, self)
  else (.ok (), writeLength buffer startPos tcp, self)

/-- The last step of `decodePacket`, run on the cleartext message: the optional
packet dump and the packet's own `decode`. -/
def decodeMessage (self : GameSocket σ ρ) (header : PacketHeader) (packet : Packet σ)
    (buffer : ByteBuffer) : Res (Packet σ) × GameSocket σ ρ :=
  let self := if self.dumpPackets then self.dumpPacket header.id buffer false else self
  let self := self.record (.decode header.id buffer.remaining)
  match packet.decode packet.fields buffer with
  | .error e =>
    (.err ("Decoding packet ID " ++ toString header.id ++ " failed: " ++ e.strerror), self)
  | .ok fields => (.ok { packet with fields := fields }, self)

def decodePacket (env : Env σ ρ) (self : GameSocket σ ρ) (buffer : ByteBuffer) :
    Res (Packet σ) × GameSocket σ ρ :=
  -- read header
  match buffer.readPacketHeader with
  | .error e => (.thrown ("unwrap of an Err: " ++ e.strerror), self)
  | .ok (header, buffer) =>
    -- packet size without the header
    let messageStart := buffer.getPosition
    let messageLength := buffer.size - messageStart
    let self := self.record (.matchPacket header.id)
    match env.matchPacket header.id with
    | none => (.err ("invalid server-side packet: " ++ toString header.id), self)
    | some packet =>
      if packet.getEncrypted && !header.encrypted then
        (.err ("server sent a cleartext packet when expected an encrypted one ("
                ++ toString header.id ++ ")"), self)
      else if header.encrypted then
        match self.cryptoBox with
        | none =>
          (.err "attempted to decrypt a packet when no cryptobox is initialized", self)
        | some cryptoBox =>
          let self := self.record (.decryptInPlace messageStart messageLength)
          match cryptoBox.decryptInPlace ((buffer.data.drop messageStart).take messageLength) with
          | .error e => (.err e, self)
          | .ok plain =>
            let messageLength := plain.length
            let buffer := (buffer.overwrite messageStart plain).resize (messageStart + messageLength)
            decodeMessage self header packet buffer
      else decodeMessage self header packet buffer

def recvPacketTCP (env : Env σ ρ) (self : GameSocket σ ρ) :
    Res (Packet σ) × GameSocket σ ρ :=
  -- receive the packet length
  match self.tcpRecvExact 4 with
  | (.error e, self) => (.err e, self)
  | (.ok bytes, self) =>
    let bb : ByteBuffer := { data := bytes, position := 0 }
    let packetSize :=
      match bb.readU32 with
      | .ok (v, _) => v
      | .error _ => 0
    if packetSize < DATA_BUF_SIZE then
      match self.tcpRecvExact packetSize with
      | (.error e, self) => (.err e, self)
      | (.ok bytes, self) =>
        let buf : ByteBuffer := { data := bytes, position := 0 }
        decodePacket env self buf
    else (.err "packet is too big, rejecting", self)

def recvPacketUDP (env : Env σ ρ) (self : GameSocket σ ρ) (skipMarker : Bool) :
    Res (Option (ReceivedPacket σ)) × GameSocket σ ρ :=
  match self.udpReceive with
  | (recvResult, self) =>
    let fromConnected := recvResult.fromServer
    if recvResult.result < 0 then
      (.err ("udp recv failed (" ++ toString recvResult.result ++ "): " ++ env.lastErrorString),
        self)
    else
      let buf : ByteBuffer :=
        { data := recvResult.data.take recvResult.result.toNat, position := 0 }
      -- if not from active server, do not read the marker
      if !fromConnected || skipMarker then
        match decodePacket env self buf with
        | (.err e, self) => (.err e, self)
        | (.thrown w, self) => (.thrown w, self)
        | (.ok packet, self) =>
          (.ok (some { packet := some packet, fromConnected := fromConnected }), self)
      else
        -- check if it is a full packet or a frame
        match buf.readU8 with
        | .error e => (.err e.strerror, self)
        | .ok (marker, buf) =>
          if marker = env.MARKER_UDP_PACKET then
            match decodePacket env self buf with
            | (.err e, self) => (.err e, self)
            | (.thrown w, self) => (.thrown w, self)
            | (.ok packet, self) =>
              (.ok (some { packet := some packet, fromConnected := fromConnected }), self)
          else if marker = env.MARKER_UDP_FRAME then
            let self := self.record (.pushFrameFromBuffer buf.remaining)
            match env.pushFrameFromBuffer self.udpBuffer buf with
            | (.error e, udpBuffer) => (.err e, { self with udpBuffer := udpBuffer })
            | (.ok maybeBuf, udpBuffer) =>
              let self := { self with udpBuffer := udpBuffer }
              if !maybeBuf.isEmpty then
                let toDecode : ByteBuffer := { data := maybeBuf, position := 0 }
                match decodePacket env self toDecode with
                | (.err e, self) => (.err e, self)
                | (.thrown w, self) => (.thrown w, self)
                | (.ok packet, self) =>
                  (.ok (some { packet := some packet, fromConnected := fromConnected }), self)
              else (.ok none, self)
          else (.err "invalid marker at the start of a udp packet", self)

def poll (env : Env σ ρ) (self : GameSocket σ ρ) (timeoutMs : Int) :
    Res PollResult × GameSocket σ ρ :=
  if !self.tcpSocket.connected then
    match self.udpPoll timeoutMs with
    | (.error e, self) => (.err e, self)
    | (.ok res, self) => (.ok (if res then PollResult.Udp else PollResult.None), self)
  else
    match self.sysPoll true true timeoutMs with
    | (fds, self) =>
      if fds.result = -1 then (.err env.lastErrorString, self)
      else
        let tcp := fds.tcp
        let udp := fds.udp
        if tcp && udp then (.ok PollResult.Both, self)
        else if tcp then (.ok PollResult.Tcp, self)
        else if udp then (.ok PollResult.Udp, self)
        else (.ok PollResult.None, self)

def pollProtocol (env : Env σ ρ) (self : GameSocket σ ρ) (proto : Protocol) (timeoutMs : Int) :
    Res Bool × GameSocket σ ρ :=
  if proto = Protocol.Unspecified then (.err "invalid protocol", self)
  else if proto = Protocol.Tcp ∧ !self.tcpSocket.connected then
    (.err "TCP socket is not connected", self)
  else
    match self.sysPoll (proto = Protocol.Tcp) (proto ≠ Protocol.Tcp) timeoutMs with
    | (fd, self) =>
      if fd.result = -1 then (.err env.lastErrorString, self)
      else (.ok (if proto = Protocol.Tcp then fd.tcp else fd.udp), self)

/-- The loop `for (;;)` of `recvPacket`, run after a first datagram that was a
frame of an unfinished message.  `fuel` bounds the number of rounds; `recvPacket`
passes more than the loop can use (`recvPacketFrames_fuel`). -/
def recvPacketFrames (env : Env σ ρ) : Nat → GameSocket σ ρ →
    Res (ReceivedPacket σ) × GameSocket σ ρ
  | 0, self => (.thrown "out of fuel", self)
  | fuel + 1, self =>
    match self.udpPoll 25 with
    | (.error e, self) => (.err e, self)
    | (.ok pollres, self) =>
      if !pollres then (.err "timed out", self)
      else
        match recvPacketUDP env self false with
        | (.ok (some out), self) => (.ok out, self)
        | (.ok none, self) => recvPacketFrames env fuel self
        | (.err e, self) => (.err ("recvPacketUDP failed: " ++ e), self)
        | (.thrown w, self) => (.thrown w, self)

def recvPacket (env : Env σ ρ) (self : GameSocket σ ρ) (timeoutMs : Int) :
    Res (ReceivedPacket σ) × GameSocket σ ρ :=
  -- negative value means poll indefinitely until either tcp or udp receives data
  match poll env self timeoutMs with
  | (.err e, self) => (.err e, self)
  | (.thrown w, self) => (.thrown w, self)
  | (.ok pollResult, self) =>
    if pollResult = PollResult.None then (.err "timed out", self)
    -- prioritize TCP, if the result is Tcp or Both, we care about TCP.
    else if pollResult ≠ PollResult.Udp then
      match recvPacketTCP env self with
      | (.ok pkt, self) => (.ok { packet := some pkt, fromConnected := true }, self)
      | (.err e, self) => (.err ("recvPacketTCP failed: " ++ e), self)
      | (.thrown w, self) => (.thrown w, self)
    else
      -- else it is a udp packet
      match recvPacketUDP env self false with
      | (.ok (some out), self) => (.ok out, self)
      | (.err e, self) => (.err ("recvPacketUDP failed: " ++ e), self)
      | (.thrown w, self) => (.thrown w, self)
      | (.ok none, self) =>
        -- if it was a frame keep trying
        recvPacketFrames env (self.udpSocket.polls.length + 1) self

def sendPacket (env : Env σ ρ) (self : GameSocket σ ρ) (packet : Packet σ)
    (protocol : Protocol) : Res Unit × GameSocket σ ρ :=
  if !self.isConnected then (.err "attempting to send a packet while disconnected", self)
  else
    let useTcp :=
      match protocol with
      | .Tcp => true
      | .Udp => false
      | _ => packet.getUseTcp
    match encodePacket env self packet {} useTcp with
    | (.err e, _, self) => (.err e, self)
    | (.thrown w, _, self) => (.thrown w, self)
    | (.ok _, buf, self) =>
      let self := if self.dumpPackets then self.dumpPacket packet.getPacketId buf true else self
      if useTcp then
        match self.tcpSendAll buf.data with
        | (.error e, self) => (.err e, self)
        | (.ok _, self) => (.ok (), self)
      else
        match self.udpSend buf.data with
        | (.error e, self) => (.err e, self)
        | (.ok _, self) => (.ok (), self)

def sendPacketTCP (env : Env σ ρ) (self : GameSocket σ ρ) (packet : Packet σ) :
    Res Unit × GameSocket σ ρ :=
  sendPacket env self packet Protocol.Tcp

def sendPacketUDP (env : Env σ ρ) (self : GameSocket σ ρ) (packet : Packet σ) :
    Res Unit × GameSocket σ ρ :=
  sendPacket env self packet Protocol.Udp

def sendPacketTo (env : Env σ ρ) (self : GameSocket σ ρ) (packet : Packet σ)
    (address : NetworkAddress) : Res Unit × GameSocket σ ρ :=
  if packet.getUseTcp then (.err "cannot send a TCP packet to a UDP connection", self)
  else
    match encodePacket env self packet {} false with
    | (.err e, _, self) => (.err e, self)
    | (.thrown w, _, self) => (.thrown w, self)
    | (.ok _, buf, self) =>
      let self := if self.dumpPackets then self.dumpPacket packet.getPacketId buf true else self
      match self.udpSendTo buf.data address with
      | (.error e, self) => (.err e, self)
      | (.ok res, self) =>
        if res = buf.size then (.ok (), self)
        else (.err "failed to send the entire buffer", self)

def sendRecoveryData (self : GameSocket σ ρ) (accountId : Int) (secretKey : Nat) :
    Res Unit × GameSocket σ ρ :=
  let bb : ByteBuffer := {}
  let bb := bb.writeI32 accountId
  let bb := bb.writeU32 secretKey
  match self.tcpSendAll bb.data with
  | (.error e, self) => (.err e, self)
  | (.ok _, self) => (.ok (), self)

end GameSocket

/-! ## A concrete instance -/

/-- A packet class whose fields are its payload bytes: `encode` writes them at
the cursor, `decode` takes the bytes that remain. -/
def rawPacket (id : Nat) (encrypted useTcp : Bool) (fields : List Nat) : Packet (List Nat) :=
  { getPacketId := id, getEncrypted := encrypted, getUseTcp := useTcp, fields := fields,
    encode := fun f b => b.rawWrite f,
    decode := fun _ b => .ok b.remaining }

/-- A cipher with an overhead of two bytes: it puts two tag bytes in front of
the reversed plain bytes. -/
def demoBox : CryptoBox :=
  { encryptInPlace := fun m => [170, 85] ++ m.reverse,
    decryptInPlace := fun c =>
      match c with
      | 170 :: 85 :: m => .ok m.reverse
      | _ => .error "authentication failed" }

/-- A reassembler whose frames start with a flag byte: `1` ends the message. -/
def demoPushFrame (st : List Nat) (buf : ByteBuffer) : Except String (List Nat) × List Nat :=
  match buf.remaining with
  | 1 :: rest => (.ok (st ++ rest), [])
  | 0 :: rest => (.ok [], st ++ rest)
  | _ => (.error "malformed frame", [])

/-- A registry with a cleartext TCP packet `7` and an encrypted UDP packet `9`. -/
def demoEnv : Env (List Nat) (List Nat) :=
  { matchPacket := fun id =>
      if id = 7 then some (rawPacket 7 false true [])
      else if id = 9 then some (rawPacket 9 true false [])
      else none,
    PREFIX_LEN := 2,
    newBox := demoBox,
    pushFrameFromBuffer := demoPushFrame,
    cleared := [],
    MARKER_CONN_INITIAL := 224,
    MARKER_CONN_RECOVERY := 225,
    MARKER_UDP_PACKET := 177,
    MARKER_UDP_FRAME := 167,
    lastErrorString := "os error" }

/-- A fresh socket: nothing connected, no cipher, nothing to receive. -/
def demoSocket : GameSocket (List Nat) (List Nat) :=
  { tcpSocket := {}, udpSocket := {}, udpBuffer := [], cryptoBox := none,
    dumpPackets := false, sysPolls := [], calls := [], dumps := [] }

/-- The state `t` is the state `s` after calls were added to the record and
packets were dumped: every member and every socket is as in `s`. -/
def GameSocket.Logged (s t : GameSocket σ ρ) : Prop :=
  t.tcpSocket = s.tcpSocket ∧ t.udpSocket = s.udpSocket ∧ t.udpBuffer = s.udpBuffer ∧
  t.cryptoBox = s.cryptoBox ∧ t.dumpPackets = s.dumpPackets ∧ t.sysPolls = s.sysPolls ∧
  ∃ extra, t.calls = s.calls ++ extra

/-- A cleartext packet of class `7` with a payload of 524285 bytes: its TCP frame
body has 524288 bytes. -/
def bigPacket : Packet (List Nat) := rawPacket 7 false true (List.replicate 524285 0)

/-- The packet of the round-trip example: class `9`, encrypted, three payload bytes. -/
def demoPacket : Packet (List Nat) := rawPacket 9 true false [1, 2, 3]

/-- A socket with the demo cipher installed. -/
def demoSecureSocket : GameSocket (List Nat) (List Nat) := GameSocket.createBox demoEnv demoSocket

/-- What `recvPacketUDP` makes of the result of `decodePacket` on a datagram
(`GLOBED_UNWRAP_INTO(this->decodePacket(buf), out.packet)` and `return Ok(out)`):
a decoded packet is returned with the sender flag, a failure is passed on. -/
def GameSocket.received (fromConnected : Bool) :
    Res (Packet σ) × GameSocket σ ρ → Res (Option (ReceivedPacket σ)) × GameSocket σ ρ
  | (.ok packet, self) =>
    (.ok (some { packet := some packet, fromConnected := fromConnected }), self)
  | (.err e, self) => (.err e, self)
  | (.thrown w, self) => (.thrown w, self)

/-- A socket on which one frame of an unfinished message arrives from the server. -/
def demoFrameSocket : GameSocket (List Nat) (List Nat) :=
  { demoSocket with udpSocket := { inbound := [⟨true, 4, [167, 0, 7, 0]⟩] } }

/-- A connected socket on which both transports are ready: the TCP stream holds
one frame of the cleartext packet `7`, a datagram waits on the UDP socket, and
the OS poll reports both descriptors readable. -/
def demoBothSocket : GameSocket (List Nat) (List Nat) :=
  { demoSocket with
    tcpSocket := { connected := true, inbound := [6, 0, 0, 0, 7, 0, 0, 1, 2, 3] }
    udpSocket := { inbound := [⟨true, 7, [177, 7, 0, 0, 9, 9, 9]⟩] }
    sysPolls := [⟨2, true, true⟩] }

/-- What a member makes of the result of a socket write it ends with
(`GLOBED_UNWRAP(...)` and `return Ok()`, or `return tcpSocket.sendAll(...)`): success
or the error of the socket. -/
def GameSocket.sent {α : Type} :
    Except String α × GameSocket σ ρ → Res Unit × GameSocket σ ρ
  | (.ok _, self) => (.ok (), self)
  | (.error e, self) => (.err e, self)

/-- The state after the optional packet dump of a send (`if (dumpPackets)
this->dumpPacket(...)`). -/
def GameSocket.dumped (self : GameSocket σ ρ) (id : Nat) (buf : ByteBuffer) : GameSocket σ ρ :=
  if self.dumpPackets then self.dumpPacket id buf true else self

/-- The transport `sendPacket` resolves (its `switch (protocol)`): TCP for
`Protocol::Tcp`, UDP for `Protocol::Udp`, the packet's preference otherwise. -/
def GameSocket.usesTcp (protocol : Protocol) (packet : Packet σ) : Bool :=
  match protocol with
  | .Tcp => true
  | .Udp => false
  | _ => packet.getUseTcp

/-- A call that waits for a socket to become readable: a poll of the UDP socket
alone, or the OS poll on the descriptors. -/
def Call.isWait : Call → Bool
  | .udpPoll _ => true
  | .sysPoll _ _ _ => true
  | _ => false

/-- The waits among the calls recorded so far, in order. -/
def GameSocket.waits (self : GameSocket σ ρ) : List Call := self.calls.filter Call.isWait

/-- The state `t` is the state `s` after steps that neither waited on a socket
nor touched the cipher. -/
def GameSocket.Quiet (s t : GameSocket σ ρ) : Prop :=
  t.cryptoBox = s.cryptoBox ∧ t.waits = s.waits

/-- The packet `pkt` is a fully decoded packet: an instance the registry made
for some id, with the fields its own `decode` read from a buffer. -/
def Decoded (env : Env σ ρ) (pkt : Packet σ) : Prop :=
  ∃ (id : Nat) (blank : Packet σ) (buf : ByteBuffer) (fields : σ),
    env.matchPacket id = some blank ∧ blank.decode blank.fields buf = .ok fields ∧
    pkt = { blank with fields := fields }

/-- A socket that is not connected, on which two frames of one message arrive
from the server, the second one ending it; the UDP socket is readable twice. -/
def demoTwoFrameSocket : GameSocket (List Nat) (List Nat) :=
  { demoSocket with
    udpSocket :=
      { inbound := [⟨true, 4, [167, 0, 7, 0]⟩, ⟨true, 4, [167, 1, 0, 5]⟩],
        polls := [.ok true, .ok true] } }

/-! ## Theorems -/

open GameSocket

variable {σ ρ : Type}

theorem ByteBuffer.rawWrite_end (b : ByteBuffer) (bytes : List Nat)
    (h : b.position = b.data.length) :
    b.rawWrite bytes = ⟨b.data ++ bytes, b.data.length + bytes.length⟩ := by
  simp [ByteBuffer.rawWrite, h]

theorem ByteBuffer.remaining_advance (b : ByteBuffer) (n : Nat) :
    ({ b with position := b.position + n } : ByteBuffer).remaining = b.remaining.drop n := by
  simp [ByteBuffer.remaining, List.drop_drop, Nat.add_comm]

theorem ByteBuffer.readPacketHeader_ok (b : ByteBuffer) (x0 x1 f : Nat) (rest : List Nat)
    (h : b.remaining = x0 :: x1 :: f :: rest) :
    b.readPacketHeader =
      .ok ({ id := x0 + 256 * x1, encrypted := f != 0 }, { b with position := b.position + 3 }) := by
  have h2 : ({ b with position := b.position + 2 } : ByteBuffer).remaining = f :: rest := by
    rw [ByteBuffer.remaining_advance, h]; rfl
  simp [ByteBuffer.readPacketHeader, ByteBuffer.readU16, ByteBuffer.readBool, ByteBuffer.readU8, h, h2]

theorem ByteBuffer.readPacketHeader_short (b : ByteBuffer)
    (h : b.remaining.length < PacketHeader.SIZE) :
    b.readPacketHeader = .error .NotEnoughData := by
  have h2 : ({ b with position := b.position + 2 } : ByteBuffer).remaining = b.remaining.drop 2 :=
    ByteBuffer.remaining_advance b 2
  unfold PacketHeader.SIZE at h
  match hr : b.remaining with
  | [] => simp [ByteBuffer.readPacketHeader, ByteBuffer.readU16, hr]
  | [_] => simp [ByteBuffer.readPacketHeader, ByteBuffer.readU16, hr]
  | [_, _] =>
    rw [hr] at h2
    simp [ByteBuffer.readPacketHeader, ByteBuffer.readU16, ByteBuffer.readBool, ByteBuffer.readU8, hr, h2]
  | _ :: _ :: _ :: _ => simp only [hr, List.length_cons] at h; omega

theorem ByteBuffer.grow_mk (d : List Nat) (pos n : Nat) :
    (⟨d, pos⟩ : ByteBuffer).grow n = ⟨d ++ List.replicate n 0, pos⟩ := by
  simp [ByteBuffer.grow, ByteBuffer.resize]

theorem ByteBuffer.overwrite_append (pre body : List Nat) (pos : Nat) (c : List Nat) :
    (⟨pre ++ body, pos⟩ : ByteBuffer).overwrite pre.length c =
      ⟨pre ++ (c ++ body.drop c.length).take body.length, pos⟩ := by
  simp [ByteBuffer.overwrite, List.take_append, List.append_assoc]

theorem ByteBuffer.rawWrite_mk_end (d bytes : List Nat) :
    (⟨d, d.length⟩ : ByteBuffer).rawWrite bytes = ⟨d ++ bytes, (d ++ bytes).length⟩ := by
  simp [ByteBuffer.rawWrite]

/-- The buffer after the header and the payload were written behind `L`. -/
theorem ByteBuffer.header_payload (L w : List Nat) (h : PacketHeader) :
    ((⟨L, L.length⟩ : ByteBuffer).writePacketHeader h).rawWrite w =
      ⟨L ++ (h.bytes ++ w), L.length + (PacketHeader.SIZE + w.length)⟩ := by
  unfold ByteBuffer.writePacketHeader ByteBuffer.writeU16 ByteBuffer.writeBool ByteBuffer.writeU8
  rw [ByteBuffer.rawWrite_mk_end, ByteBuffer.rawWrite_mk_end, ByteBuffer.rawWrite_mk_end]
  rcases h with ⟨id, _ | _⟩ <;>
    simp [ByteBuffer.u16Bytes, PacketHeader.bytes, PacketHeader.SIZE] <;> omega

/-- The back-patch of the length field. -/
theorem ByteBuffer.backpatch (l0 l1 l2 l3 : Nat) (rest : List Nat) (pos v : Nat) :
    (((⟨l0 :: l1 :: l2 :: l3 :: rest, pos⟩ : ByteBuffer).setPosition 0).writeU32 v).setPosition pos =
      ⟨ByteBuffer.u32Bytes v ++ rest, pos⟩ := by
  simp [ByteBuffer.setPosition, ByteBuffer.writeU32, ByteBuffer.rawWrite, ByteBuffer.u32Bytes]

theorem ByteBuffer.region_plain (L w : List Nat) (h : PacketHeader) (P : Nat) :
    ((L ++ (h.bytes ++ w) ++ List.replicate P 0).drop (L.length + PacketHeader.SIZE)).take w.length
      = w := by
  have e : L ++ (h.bytes ++ w) ++ List.replicate P 0 = (L ++ h.bytes) ++ (w ++ List.replicate P 0) := by
    simp
  have l : L.length + PacketHeader.SIZE = (L ++ h.bytes).length := by
    simp [PacketHeader.bytes, ByteBuffer.u16Bytes, PacketHeader.SIZE]
  rw [e, l, List.drop_left]
  simp

theorem ByteBuffer.overwrite_region (L w c : List Nat) (h : PacketHeader) (P pos : Nat) :
    (⟨L ++ (h.bytes ++ w) ++ List.replicate P 0, pos⟩ : ByteBuffer).overwrite
        (L.length + PacketHeader.SIZE) c =
      ⟨L ++ (h.bytes ++ (c ++ (w ++ List.replicate P 0).drop c.length).take (w.length + P)), pos⟩ := by
  have e : L ++ (h.bytes ++ w) ++ List.replicate P 0 = (L ++ h.bytes) ++ (w ++ List.replicate P 0) := by
    simp
  have l : L.length + PacketHeader.SIZE = (L ++ h.bytes).length := by
    simp [PacketHeader.bytes, ByteBuffer.u16Bytes, PacketHeader.SIZE]
  rw [e, l, ByteBuffer.overwrite_append]
  simp

theorem ByteBuffer.region_size (L w : List Nat) (h : PacketHeader) (P : Nat) :
    (L ++ (h.bytes ++ w) ++ List.replicate P 0).length - (PacketHeader.SIZE + L.length) - 0 - P
      = w.length := by
  simp [PacketHeader.bytes, ByteBuffer.u16Bytes, PacketHeader.SIZE]
  omega

theorem ByteBuffer.sealed_length (c w : List Nat) (P : Nat) :
    ((c ++ (w ++ List.replicate P 0).drop c.length).take (w.length + P)).length = w.length + P := by
  simp
  omega

theorem GameSocket.encodePacket_encrypted (env : Env σ ρ) (s : GameSocket σ ρ) (p : Packet σ)
    (w : List Nat) (tcp : Bool) (box : CryptoBox)
    (hEnc : ∀ b, p.encode p.fields b = b.rawWrite w) (henc : p.getEncrypted = true)
    (hbox : s.cryptoBox = some box) :
    encodePacket env s p {} tcp =
      (.ok (),
        ⟨(if tcp then ByteBuffer.u32Bytes (PacketHeader.SIZE + w.length + env.PREFIX_LEN) else []) ++
            (PacketHeader.bytes ⟨p.getPacketId, true⟩ ++
              (box.encryptInPlace w ++
                (w ++ List.replicate env.PREFIX_LEN 0).drop (box.encryptInPlace w).length).take
                  (w.length + env.PREFIX_LEN)),
          (if tcp then 4 else 0) + (PacketHeader.SIZE + w.length)⟩,
        (s.record (.encode p.getPacketId)).record
          (.encryptInPlace (PacketHeader.SIZE + (if tcp then 4 else 0)) w.length)) := by
  cases tcp
  · have e0 : ({} : ByteBuffer) = ⟨[], ([] : List Nat).length⟩ := rfl
    have hp := ByteBuffer.region_plain [] w ⟨p.getPacketId, true⟩ env.PREFIX_LEN
    have ho := ByteBuffer.overwrite_region [] w (box.encryptInPlace w) ⟨p.getPacketId, true⟩
      env.PREFIX_LEN
    have hl := ByteBuffer.region_size [] w ⟨p.getPacketId, true⟩ env.PREFIX_LEN
    have hoff : 0 + (PacketHeader.SIZE + 0) = ([] : List Nat).length + PacketHeader.SIZE := by
      simp
    simp only [encodePacket, henc, hbox, hEnc, record, if_true, Bool.false_eq_true, if_false, e0,
      ByteBuffer.header_payload, ByteBuffer.grow_mk, ByteBuffer.getPosition, ByteBuffer.size,
      writeLength]
    simp only [List.length_nil] at hl
    rw [hl, hoff, hp, ho]
    simp
  · have e0 : ByteBuffer.writeU32 {} 0 = ⟨[0, 0, 0, 0], ([0, 0, 0, 0] : List Nat).length⟩ := rfl
    have hp := ByteBuffer.region_plain [0, 0, 0, 0] w ⟨p.getPacketId, true⟩ env.PREFIX_LEN
    have ho := ByteBuffer.overwrite_region [0, 0, 0, 0] w (box.encryptInPlace w)
      ⟨p.getPacketId, true⟩ env.PREFIX_LEN
    have hl := ByteBuffer.region_size [0, 0, 0, 0] w ⟨p.getPacketId, true⟩ env.PREFIX_LEN
    have hs := ByteBuffer.sealed_length (box.encryptInPlace w) w env.PREFIX_LEN
    have hoff : 0 + (PacketHeader.SIZE + 4) = ([0, 0, 0, 0] : List Nat).length + PacketHeader.SIZE := by
      simp only [List.length_cons, List.length_nil]
      omega
    have h4 : ([0, 0, 0, 0] : List Nat).length = 4 := rfl
    simp only [encodePacket, henc, hbox, hEnc, record, if_true, e0,
      ByteBuffer.header_payload, ByteBuffer.grow_mk, ByteBuffer.getPosition, ByteBuffer.size,
      writeLength]
    simp only [h4] at hl
    rw [hl, hoff, hp, ho]
    simp only [List.cons_append, List.nil_append, ByteBuffer.backpatch, List.length_cons,
      List.length_append, hs]
    simp [PacketHeader.bytes, ByteBuffer.u16Bytes, PacketHeader.SIZE]
    congr 1
    omega

theorem GameSocket.encodePacket_clear (env : Env σ ρ) (s : GameSocket σ ρ) (p : Packet σ)
    (w : List Nat) (tcp : Bool)
    (hEnc : ∀ b, p.encode p.fields b = b.rawWrite w) (hclear : p.getEncrypted = false) :
    encodePacket env s p {} tcp =
      (.ok (),
        ⟨(if tcp then ByteBuffer.u32Bytes (PacketHeader.SIZE + w.length) else []) ++
            (PacketHeader.bytes ⟨p.getPacketId, false⟩ ++ w),
          (if tcp then 4 else 0) + (PacketHeader.SIZE + w.length)⟩,
        s.record (.encode p.getPacketId)) := by
  cases tcp
  · have e0 : ({} : ByteBuffer) = ⟨[], ([] : List Nat).length⟩ := rfl
    simp only [encodePacket, hclear, hEnc, record, Bool.false_eq_true, if_false, e0,
      ByteBuffer.header_payload, writeLength]
    simp
  · have e0 : ByteBuffer.writeU32 {} 0 = ⟨[0, 0, 0, 0], ([0, 0, 0, 0] : List Nat).length⟩ := rfl
    simp only [encodePacket, hclear, hEnc, record, Bool.false_eq_true, if_false, if_true, e0,
      ByteBuffer.header_payload, ByteBuffer.getPosition, ByteBuffer.size, writeLength]
    simp only [List.cons_append, List.nil_append, ByteBuffer.backpatch, List.length_cons,
      List.length_append]
    simp [PacketHeader.bytes, ByteBuffer.u16Bytes, PacketHeader.SIZE]

theorem GameSocket.Logged.refl (s : GameSocket σ ρ) : Logged s s :=
  ⟨rfl, rfl, rfl, rfl, rfl, rfl, [], by simp⟩

theorem GameSocket.Logged.trans {s t u : GameSocket σ ρ} (h1 : Logged s t) (h2 : Logged t u) :
    Logged s u := by
  obtain ⟨a1, a2, a3, a4, a5, a6, e1, a7⟩ := h1
  obtain ⟨b1, b2, b3, b4, b5, b6, e2, b7⟩ := h2
  exact ⟨b1.trans a1, b2.trans a2, b3.trans a3, b4.trans a4, b5.trans a5, b6.trans a6,
    e1 ++ e2, by rw [b7, a7, List.append_assoc]⟩

theorem GameSocket.Logged.record (s : GameSocket σ ρ) (c : Call) : Logged s (s.record c) :=
  ⟨rfl, rfl, rfl, rfl, rfl, rfl, [c], rfl⟩

theorem GameSocket.Logged.dumpPacket (s : GameSocket σ ρ) (id : Nat) (b : ByteBuffer)
    (sending : Bool) : Logged s (s.dumpPacket id b sending) :=
  ⟨rfl, rfl, rfl, rfl, rfl, rfl, [], by simp [GameSocket.dumpPacket]⟩

theorem GameSocket.decodeMessage_state (s : GameSocket σ ρ) (header : PacketHeader)
    (packet : Packet σ) (b : ByteBuffer) :
    (decodeMessage s header packet b).2 =
      (if s.dumpPackets then s.dumpPacket header.id b false else s).record
        (.decode header.id b.remaining) := by
  cases hd : packet.decode packet.fields b <;> simp [decodeMessage, hd]

theorem GameSocket.decodeMessage_logged (s : GameSocket σ ρ) (header : PacketHeader)
    (packet : Packet σ) (b : ByteBuffer) : Logged s (decodeMessage s header packet b).2 := by
  rw [decodeMessage_state]
  refine Logged.trans ?_ (Logged.record _ _)
  split
  · exact Logged.dumpPacket _ _ _ _
  · exact Logged.refl _

theorem GameSocket.decodePacket_short (env : Env σ ρ) (s : GameSocket σ ρ) (b : ByteBuffer)
    (h : b.remaining.length < PacketHeader.SIZE) :
    decodePacket env s b = (.thrown "unwrap of an Err: not enough data", s) := by
  simp [decodePacket, ByteBuffer.readPacketHeader_short b h, DecodeError.strerror]

theorem GameSocket.decodePacket_unknown (env : Env σ ρ) (s : GameSocket σ ρ)
    (b buffer : ByteBuffer) (header : PacketHeader)
    (hh : b.readPacketHeader = .ok (header, buffer)) (hm : env.matchPacket header.id = none) :
    decodePacket env s b =
      (.err ("invalid server-side packet: " ++ toString header.id),
        s.record (.matchPacket header.id)) := by
  simp [decodePacket, hh, hm]

theorem GameSocket.decodePacket_downgrade (env : Env σ ρ) (s : GameSocket σ ρ)
    (b buffer : ByteBuffer) (header : PacketHeader) (packet : Packet σ)
    (hh : b.readPacketHeader = .ok (header, buffer))
    (hm : env.matchPacket header.id = some packet)
    (hp : packet.getEncrypted = true) (he : header.encrypted = false) :
    decodePacket env s b =
      (.err ("server sent a cleartext packet when expected an encrypted one ("
              ++ toString header.id ++ ")"),
        s.record (.matchPacket header.id)) := by
  simp [decodePacket, hh, hm, hp, he]

theorem GameSocket.decodePacket_nobox (env : Env σ ρ) (s : GameSocket σ ρ)
    (b buffer : ByteBuffer) (header : PacketHeader) (packet : Packet σ)
    (hh : b.readPacketHeader = .ok (header, buffer))
    (hm : env.matchPacket header.id = some packet)
    (he : header.encrypted = true) (hc : s.cryptoBox = none) :
    decodePacket env s b =
      (.err "attempted to decrypt a packet when no cryptobox is initialized",
        s.record (.matchPacket header.id)) := by
  simp [decodePacket, hh, hm, he, hc, record]

theorem GameSocket.decodePacket_sealed (env : Env σ ρ) (s : GameSocket σ ρ)
    (b buffer : ByteBuffer) (header : PacketHeader) (packet : Packet σ) (box : CryptoBox)
    (hh : b.readPacketHeader = .ok (header, buffer))
    (hm : env.matchPacket header.id = some packet)
    (he : header.encrypted = true) (hc : s.cryptoBox = some box) :
    decodePacket env s b =
      match box.decryptInPlace
          ((buffer.data.drop buffer.position).take (buffer.data.length - buffer.position)) with
      | .error e =>
        (.err e, (s.record (.matchPacket header.id)).record
          (.decryptInPlace buffer.position (buffer.data.length - buffer.position)))
      | .ok plain =>
        decodeMessage
          ((s.record (.matchPacket header.id)).record
            (.decryptInPlace buffer.position (buffer.data.length - buffer.position)))
          header packet
          ((buffer.overwrite buffer.position plain).resize (buffer.position + plain.length)) := by
  simp [decodePacket, hh, hm, he, hc, record, ByteBuffer.getPosition, ByteBuffer.size]

theorem GameSocket.decodePacket_clear (env : Env σ ρ) (s : GameSocket σ ρ)
    (b buffer : ByteBuffer) (header : PacketHeader) (packet : Packet σ)
    (hh : b.readPacketHeader = .ok (header, buffer))
    (hm : env.matchPacket header.id = some packet)
    (he : header.encrypted = false) (hp : packet.getEncrypted = false) :
    decodePacket env s b =
      decodeMessage (s.record (.matchPacket header.id)) header packet buffer := by
  simp [decodePacket, hh, hm, he, hp]

theorem GameSocket.decodePacket_logged (env : Env σ ρ) (s : GameSocket σ ρ) (b : ByteBuffer) :
    Logged s (decodePacket env s b).2 := by
  cases hh : b.readPacketHeader with
  | error e =>
    simp only [decodePacket, hh]
    exact Logged.refl _
  | ok hb =>
    obtain ⟨header, buffer⟩ := hb
    cases hm : env.matchPacket header.id with
    | none =>
      rw [decodePacket_unknown env s b buffer header hh hm]
      exact Logged.record _ _
    | some packet =>
      cases he : header.encrypted with
      | false =>
        cases hp : packet.getEncrypted with
        | false =>
          rw [decodePacket_clear env s b buffer header packet hh hm he hp]
          exact (Logged.record _ _).trans (decodeMessage_logged _ _ _ _)
        | true =>
          rw [decodePacket_downgrade env s b buffer header packet hh hm hp he]
          exact Logged.record _ _
      | true =>
        cases hc : s.cryptoBox with
        | none =>
          rw [decodePacket_nobox env s b buffer header packet hh hm he hc]
          exact Logged.record _ _
        | some box =>
          rw [decodePacket_sealed env s b buffer header packet box hh hm he hc]
          split
          · exact (Logged.record _ _).trans (Logged.record _ _)
          · exact ((Logged.record _ _).trans (Logged.record _ _)).trans
              (decodeMessage_logged _ _ _ _)

theorem GameSocket.encodePacket_logged (env : Env σ ρ) (s : GameSocket σ ρ) (p : Packet σ)
    (b : ByteBuffer) (tcp : Bool) : Logged s (encodePacket env s p b tcp).2.2 := by
  cases he : p.getEncrypted <;> cases hc : s.cryptoBox <;>
    simp [encodePacket, he, hc, record, Logged]

theorem ByteBuffer.readU32_u32Bytes (v : Nat) (rest : List Nat) :
    ByteBuffer.readU32 ⟨ByteBuffer.u32Bytes v ++ rest, 0⟩ =
      .ok (v % 4294967296, ⟨ByteBuffer.u32Bytes v ++ rest, 4⟩) := by
  simp [ByteBuffer.readU32, ByteBuffer.remaining, ByteBuffer.u32Bytes]
  omega

theorem ByteBuffer.readPacketHeader_bytes (id : Nat) (enc : Bool) (body : List Nat)
    (hid : id < 65536) :
    ByteBuffer.readPacketHeader ⟨PacketHeader.bytes ⟨id, enc⟩ ++ body, 0⟩ =
      .ok (⟨id, enc⟩, ⟨PacketHeader.bytes ⟨id, enc⟩ ++ body, 3⟩) := by
  have h := ByteBuffer.readPacketHeader_ok ⟨PacketHeader.bytes ⟨id, enc⟩ ++ body, 0⟩
    (id % 256) (id / 256 % 256) (if enc then 1 else 0) body
    (by simp [ByteBuffer.remaining, PacketHeader.bytes, ByteBuffer.u16Bytes])
  rw [h]
  have e : id % 256 + 256 * (id / 256 % 256) = id := by omega
  cases enc <;> simp [e]

/-- What `recvPacketTCP` does with a stream that starts with a length field `n`
below the capacity and `n` bytes behind it. -/
theorem GameSocket.recvPacketTCP_framed (env : Env σ ρ) (s : GameSocket σ ρ) (n : Nat)
    (body rest : List Nat)
    (hs : s.tcpSocket.inbound = ByteBuffer.u32Bytes n ++ (body ++ rest))
    (hn : body.length = n) (hlt : n < DATA_BUF_SIZE) :
    recvPacketTCP env s =
      decodePacket env
        { s with
          tcpSocket := { s.tcpSocket with inbound := rest }
          calls := s.calls ++ [.tcpRecvExact 4, .tcpRecvExact n] }
        ⟨body, 0⟩ := by
  have h32 : n % 4294967296 = n := by
    have : DATA_BUF_SIZE = 524288 := rfl
    omega
  have hr := ByteBuffer.readU32_u32Bytes n []
  simp only [List.append_nil] at hr
  have ht : List.take 4 (ByteBuffer.u32Bytes n ++ (body ++ rest)) = ByteBuffer.u32Bytes n := by
    simp [ByteBuffer.u32Bytes]
  have hd : List.drop 4 (ByteBuffer.u32Bytes n ++ (body ++ rest)) = body ++ rest := by
    simp [ByteBuffer.u32Bytes]
  have hl : 4 ≤ (ByteBuffer.u32Bytes n ++ (body ++ rest)).length := by
    simp [ByteBuffer.u32Bytes]
  simp only [recvPacketTCP, tcpRecvExact, record, hs, hl, if_true, ht, hd, hr, h32, hlt]
  subst hn
  simp

theorem ByteBuffer.decrypt_buffer (pre c plain : List Nat) (h : plain.length ≤ c.length) :
    ((⟨pre ++ c, pre.length⟩ : ByteBuffer).overwrite pre.length plain).resize
        (pre.length + plain.length) = ⟨pre ++ plain, pre.length⟩ := by
  rw [ByteBuffer.overwrite_append]
  simp only [ByteBuffer.resize, List.take_append, List.length_append, List.length_take,
    List.length_drop]
  have e1 : List.take plain.length (List.take c.length (plain ++ List.drop plain.length c)) = plain := by
    rw [List.take_take, Nat.min_eq_left h, List.take_left]
  have e2 : pre.length + plain.length -
      (pre.length + min c.length (plain.length + (c.length - plain.length))) = 0 := by
    omega
  rw [e1, e2]
  simp

/-- Decoding a frame body made of the header of packet `id`, cleartext, and a
payload. -/
theorem GameSocket.decodePacket_body_clear (env : Env σ ρ) (r : GameSocket σ ρ) (id : Nat)
    (blank : Packet σ) (w : List Nat) (f : σ)
    (hid : id < 65536) (hm : env.matchPacket id = some blank)
    (hb : blank.getEncrypted = false)
    (hDec : ∀ b : ByteBuffer, b.remaining = w → blank.decode blank.fields b = .ok f) :
    (decodePacket env r ⟨PacketHeader.bytes ⟨id, false⟩ ++ w, 0⟩).1 =
      .ok { blank with fields := f } := by
  have hh := ByteBuffer.readPacketHeader_bytes id false w hid
  rw [decodePacket_clear env r _ _ _ blank hh hm rfl hb]
  have hd := hDec ⟨PacketHeader.bytes ⟨id, false⟩ ++ w, 3⟩
    (by simp [ByteBuffer.remaining, PacketHeader.bytes, ByteBuffer.u16Bytes])
  simp [decodeMessage, hd]

/-- Decoding a frame body made of the header of packet `id`, encrypted, and what
the cipher left of a payload. -/
theorem GameSocket.decodePacket_body_sealed (env : Env σ ρ) (r : GameSocket σ ρ) (id : Nat)
    (blank : Packet σ) (w c : List Nat) (f : σ) (box : CryptoBox)
    (hid : id < 65536) (hm : env.matchPacket id = some blank)
    (hc : r.cryptoBox = some box) (hinv : box.decryptInPlace c = .ok w)
    (hlen : w.length ≤ c.length)
    (hDec : ∀ b : ByteBuffer, b.remaining = w → blank.decode blank.fields b = .ok f) :
    (decodePacket env r ⟨PacketHeader.bytes ⟨id, true⟩ ++ c, 0⟩).1 =
      .ok { blank with fields := f } := by
  have hh := ByteBuffer.readPacketHeader_bytes id true c hid
  rw [decodePacket_sealed env r _ _ _ blank box hh hm rfl hc]
  have h3 : (PacketHeader.bytes ⟨id, true⟩).length = 3 := by
    simp [PacketHeader.bytes, ByteBuffer.u16Bytes]
  have hregion : List.take ((PacketHeader.bytes ⟨id, true⟩ ++ c).length - 3)
      (List.drop 3 (PacketHeader.bytes ⟨id, true⟩ ++ c)) = c := by
    rw [← h3, List.drop_left]
    simp
  simp only [hregion, hinv]
  have hbuf := ByteBuffer.decrypt_buffer (PacketHeader.bytes ⟨id, true⟩) c w hlen
  rw [h3] at hbuf
  rw [hbuf]
  have hd := hDec ⟨PacketHeader.bytes ⟨id, true⟩ ++ w, 3⟩
    (by simp [ByteBuffer.remaining, PacketHeader.bytes, ByteBuffer.u16Bytes])
  simp [decodeMessage, hd]

theorem ByteBuffer.sealed_eq (c w : List Nat) (P : Nat) (h : c.length = w.length + P) :
    (c ++ (w ++ List.replicate P 0).drop c.length).take (w.length + P) = c := by
  have e : (w ++ List.replicate P 0).drop c.length = [] := by
    apply List.drop_eq_nil_of_le
    simp [h]
  rw [e, List.append_nil, ← h, List.take_length]

/-- A length field at or above the capacity: `recvPacketTCP` fails after the
four bytes of the length, which is all it reads. -/
theorem GameSocket.recvPacketTCP_too_big (env : Env σ ρ) (s : GameSocket σ ρ)
    (b0 b1 b2 b3 : Nat) (rest : List Nat)
    (hs : s.tcpSocket.inbound = b0 :: b1 :: b2 :: b3 :: rest)
    (hL : DATA_BUF_SIZE ≤ b0 + 256 * b1 + 65536 * b2 + 16777216 * b3) :
    recvPacketTCP env s =
      (.err "packet is too big, rejecting",
        { s with
          tcpSocket := { s.tcpSocket with inbound := rest }
          calls := s.calls ++ [.tcpRecvExact 4] }) := by
  have hnot : ¬ (b0 + 256 * b1 + 65536 * b2 + 16777216 * b3 < DATA_BUF_SIZE) := by omega
  simp [recvPacketTCP, tcpRecvExact, record, hs, ByteBuffer.readU32, ByteBuffer.remaining, hnot]

/-- C1 (as amended): round trip of the codec.  A packet whose id is a `u16` and whose class
the registry resolves by that id (`blank` is the fresh instance), whose `encode` writes the payload `w` and
whose `decode` reads the fields back from `w`, encoded on socket `s` and decoded
on socket `r` (for an encrypted packet both hold a cipher `box` that adds
`PREFIX_LEN` bytes and whose `decryptInPlace` inverts its `encryptInPlace`):
`decodePacket` on the UDP encoding gives the packet back, and so does
`recvPacketTCP` on a stream that starts with the TCP encoding, provided the
frame is shorter than `DATA_BUF_SIZE`; a frame of `DATA_BUF_SIZE` bytes or more
whose size the `u32` length field holds (below `2^32`) is rejected by
`recvPacketTCP` with "packet is too big, rejecting". -/
theorem codec_roundtrip (env : Env σ ρ) (s r : GameSocket σ ρ) (p blank : Packet σ)
    (w rest : List Nat) (box : CryptoBox)
    (hid : p.getPacketId < 65536)
    (hmatch : env.matchPacket p.getPacketId = some blank)
    (hblankId : blank.getPacketId = p.getPacketId)
    (hblankEnc : blank.getEncrypted = p.getEncrypted)
    (hEnc : ∀ b, p.encode p.fields b = b.rawWrite w)
    (hDec : ∀ b : ByteBuffer, b.remaining = w → blank.decode blank.fields b = .ok p.fields)
    (hBox : p.getEncrypted = true →
      s.cryptoBox = some box ∧ r.cryptoBox = some box ∧
      (box.encryptInPlace w).length = w.length + env.PREFIX_LEN ∧
      box.decryptInPlace (box.encryptInPlace w) = .ok w) :
    (encodePacket env s p {} false).1 = .ok () ∧
    (decodePacket env r ⟨(encodePacket env s p {} false).2.1.data, 0⟩).1 =
      .ok { blank with fields := p.fields } ∧
    (encodePacket env s p {} true).1 = .ok () ∧
    (PacketHeader.SIZE + w.length + (if p.getEncrypted then env.PREFIX_LEN else 0)
        < DATA_BUF_SIZE →
      (recvPacketTCP env
          { r with tcpSocket :=
              { r.tcpSocket with inbound := (encodePacket env s p {} true).2.1.data ++ rest } }).1 =
        .ok { blank with fields := p.fields } ∧
      (recvPacketTCP env
          { r with tcpSocket :=
              { r.tcpSocket with inbound := (encodePacket env s p {} true).2.1.data ++ rest } }
        ).2.tcpSocket.inbound = rest) ∧
    (DATA_BUF_SIZE ≤
        PacketHeader.SIZE + w.length + (if p.getEncrypted then env.PREFIX_LEN else 0) →
      PacketHeader.SIZE + w.length + (if p.getEncrypted then env.PREFIX_LEN else 0)
        < 4294967296 →
      (recvPacketTCP env
          { r with tcpSocket :=
              { r.tcpSocket with inbound := (encodePacket env s p {} true).2.1.data ++ rest } }).1 =
        .err "packet is too big, rejecting") ∧
    ({ blank with fields := p.fields } : Packet σ).getPacketId = p.getPacketId ∧
    ({ blank with fields := p.fields } : Packet σ).fields = p.fields := by
  have h3 : ∀ e, (PacketHeader.bytes ⟨p.getPacketId, e⟩).length = PacketHeader.SIZE := by
    intro e
    cases e <;> simp [PacketHeader.bytes, ByteBuffer.u16Bytes, PacketHeader.SIZE]
  cases he : p.getEncrypted with
  | false =>
    have hb : blank.getEncrypted = false := by rw [hblankEnc, he]
    rw [encodePacket_clear env s p w false hEnc he, encodePacket_clear env s p w true hEnc he]
    refine ⟨rfl, ?_, rfl, ?_, ?_, hblankId, rfl⟩
    · simpa using decodePacket_body_clear env r p.getPacketId blank w p.fields hid hmatch hb hDec
    · intro hlt
      simp only [if_true, Bool.false_eq_true, if_false, Nat.add_zero] at hlt ⊢
      have hf := recvPacketTCP_framed env
        { r with tcpSocket :=
            { r.tcpSocket with inbound :=
                ByteBuffer.u32Bytes (PacketHeader.SIZE + w.length) ++
                  (PacketHeader.bytes ⟨p.getPacketId, false⟩ ++ w) ++ rest } }
        (PacketHeader.SIZE + w.length) (PacketHeader.bytes ⟨p.getPacketId, false⟩ ++ w) rest
        (by simp) (by simp [h3]) hlt
      rw [hf]
      refine ⟨decodePacket_body_clear env _ p.getPacketId blank w p.fields hid hmatch hb hDec, ?_⟩
      rw [(decodePacket_logged env _ _).1]
    · intro hbig h32
      simp only [if_true, Bool.false_eq_true, if_false, Nat.add_zero] at hbig h32 ⊢
      rw [recvPacketTCP_too_big env _ ((PacketHeader.SIZE + w.length) % 256)
        ((PacketHeader.SIZE + w.length) / 256 % 256)
        ((PacketHeader.SIZE + w.length) / 65536 % 256)
        ((PacketHeader.SIZE + w.length) / 16777216 % 256)
        (PacketHeader.bytes ⟨p.getPacketId, false⟩ ++ w ++ rest)
        (by simp [ByteBuffer.u32Bytes]) (by omega)]
  | true =>
    obtain ⟨hs, hr, hlen, hinv⟩ := hBox he
    have hb : blank.getEncrypted = true := by rw [hblankEnc, he]
    rw [encodePacket_encrypted env s p w false box hEnc he hs,
      encodePacket_encrypted env s p w true box hEnc he hs,
      ByteBuffer.sealed_eq _ _ _ hlen]
    refine ⟨rfl, ?_, rfl, ?_, ?_, hblankId, rfl⟩
    · simpa using decodePacket_body_sealed env r p.getPacketId blank w (box.encryptInPlace w)
        p.fields box hid hmatch hr hinv (by omega) hDec
    · intro hlt
      simp only [if_true] at hlt ⊢
      have hf := recvPacketTCP_framed env
        { r with tcpSocket :=
            { r.tcpSocket with inbound :=
                ByteBuffer.u32Bytes (PacketHeader.SIZE + w.length + env.PREFIX_LEN) ++
                  (PacketHeader.bytes ⟨p.getPacketId, true⟩ ++ box.encryptInPlace w) ++ rest } }
        (PacketHeader.SIZE + w.length + env.PREFIX_LEN)
        (PacketHeader.bytes ⟨p.getPacketId, true⟩ ++ box.encryptInPlace w) rest
        (by simp) (by simp [h3, hlen]; omega) hlt
      rw [hf]
      refine ⟨decodePacket_body_sealed env _ p.getPacketId blank w (box.encryptInPlace w)
        p.fields box hid hmatch hr hinv (by omega) hDec, ?_⟩
      rw [(decodePacket_logged env _ _).1]
    · intro hbig h32
      simp only [if_true] at hbig h32 ⊢
      rw [recvPacketTCP_too_big env _ ((PacketHeader.SIZE + w.length + env.PREFIX_LEN) % 256)
        ((PacketHeader.SIZE + w.length + env.PREFIX_LEN) / 256 % 256)
        ((PacketHeader.SIZE + w.length + env.PREFIX_LEN) / 65536 % 256)
        ((PacketHeader.SIZE + w.length + env.PREFIX_LEN) / 16777216 % 256)
        (PacketHeader.bytes ⟨p.getPacketId, true⟩ ++ box.encryptInPlace w ++ rest)
        (by simp [ByteBuffer.u32Bytes]) (by omega)]

theorem GameSocket.recvPacketTCP_encoded_too_big (env : Env σ ρ) (s r : GameSocket σ ρ)
    (p : Packet σ) (w : List Nat)
    (hEnc : ∀ b, p.encode p.fields b = b.rawWrite w) (hclear : p.getEncrypted = false)
    (hbig : DATA_BUF_SIZE ≤ PacketHeader.SIZE + w.length)
    (h32 : PacketHeader.SIZE + w.length < 4294967296) :
    (recvPacketTCP env
        { r with tcpSocket :=
            { r.tcpSocket with inbound := (encodePacket env s p {} true).2.1.data } }).1 =
      .err "packet is too big, rejecting" := by
  rw [encodePacket_clear env s p w true hEnc hclear]
  rw [recvPacketTCP_too_big env _ ((PacketHeader.SIZE + w.length) % 256)
    ((PacketHeader.SIZE + w.length) / 256 % 256) ((PacketHeader.SIZE + w.length) / 65536 % 256)
    ((PacketHeader.SIZE + w.length) / 16777216 % 256)
    (PacketHeader.bytes ⟨p.getPacketId, false⟩ ++ w) (by simp [ByteBuffer.u32Bytes]) (by omega)]

/-- C1, witness: the encrypted packet `9` with payload `1, 2, 3` comes back from both framings. -/
theorem codec_roundtrip_witness :
    (decodePacket demoEnv demoSecureSocket
        ⟨(encodePacket demoEnv demoSecureSocket demoPacket {} false).2.1.data, 0⟩).1 =
      .ok demoPacket ∧
    (recvPacketTCP demoEnv
        { demoSecureSocket with tcpSocket :=
            { demoSecureSocket.tcpSocket with inbound :=
                (encodePacket demoEnv demoSecureSocket demoPacket {} true).2.1.data ++ [99] } }).1 =
      .ok demoPacket :=
  have h := codec_roundtrip demoEnv demoSecureSocket demoSecureSocket demoPacket
    (rawPacket 9 true false []) [1, 2, 3] [99] demoBox (by decide) rfl rfl rfl (fun _ => rfl)
    (fun b hb => congrArg Except.ok hb) (fun _ => ⟨rfl, rfl, rfl, rfl⟩)
  ⟨h.2.1, (h.2.2.2.1 (by decide)).1⟩

/-- C1, counterexample: the cleartext packet `7` with 524285 payload bytes is resolved by the
registry, its `decode` inverts its `encode`, `encodePacket` succeeds with TCP
framing, and `recvPacketTCP` on exactly the encoded bytes rejects the frame. -/
theorem codec_roundtrip_tcp_counterexample :
    demoEnv.matchPacket bigPacket.getPacketId = some (rawPacket 7 false true []) ∧
    (∀ b : ByteBuffer, b.remaining = bigPacket.fields →
      (rawPacket 7 false true []).decode [] b = .ok bigPacket.fields) ∧
    (encodePacket demoEnv demoSocket bigPacket {} true).1 = .ok () ∧
    (recvPacketTCP demoEnv
        { demoSocket with tcpSocket :=
            { demoSocket.tcpSocket with inbound :=
                (encodePacket demoEnv demoSocket bigPacket {} true).2.1.data } }).1 =
      .err "packet is too big, rejecting" := by
  have hEnc : ∀ b, bigPacket.encode bigPacket.fields b = b.rawWrite (List.replicate 524285 0) :=
    fun _ => rfl
  have hlen : (List.replicate 524285 0 : List Nat).length = 524285 := List.length_replicate _ _
  refine ⟨rfl, fun b hb => ?_, ?_, ?_⟩
  · show Except.ok b.remaining = Except.ok bigPacket.fields
    rw [hb]
  · rw [encodePacket_clear demoEnv demoSocket bigPacket _ true hEnc rfl]
  · exact recvPacketTCP_encoded_too_big demoEnv demoSocket demoSocket bigPacket _ hEnc rfl
      (by rw [hlen]; decide) (by rw [hlen]; decide)

theorem GameSocket.writeLength_position (b : ByteBuffer) (startPos : Nat) (tcp : Bool) :
    (writeLength b startPos tcp).position = b.position := by
  cases tcp <;> simp [writeLength, ByteBuffer.setPosition, ByteBuffer.getPosition]

/-- C2: with TCP framing and an empty buffer, a successful `encodePacket` (the
packet's `encode` writes the payload `w`; a cipher is installed if the packet is
encrypted) leaves as the first four bytes the u32 encoding of the buffer size
minus 4, which is the header size plus the payload length plus `PREFIX_LEN` for
an encrypted packet; the size is 4 more than that value, a reader gets the value
back from those bytes, and the cursor is where it was before the back-patch,
behind the payload. -/
theorem encodePacket_tcp_length_field (env : Env σ ρ) (s : GameSocket σ ρ) (p : Packet σ)
    (w : List Nat)
    (hEnc : ∀ b, p.encode p.fields b = b.rawWrite w)
    (hBox : p.getEncrypted = true → s.cryptoBox.isSome = true) :
    ∃ buf s', encodePacket env s p {} true = (.ok (), buf, s') ∧
      buf.data.take 4 = ByteBuffer.u32Bytes (buf.size - 4) ∧
      buf.size - 4 =
        PacketHeader.SIZE + w.length + (if p.getEncrypted then env.PREFIX_LEN else 0) ∧
      buf.size = 4 + (buf.size - 4) ∧
      (buf.size - 4 < 4294967296 →
        ByteBuffer.readU32 ⟨buf.data, 0⟩ = .ok (buf.size - 4, ⟨buf.data, 4⟩)) ∧
      buf.position = 4 + PacketHeader.SIZE + w.length ∧
      (∀ (b : ByteBuffer) (startPos : Nat), (writeLength b startPos true).position = b.position) := by
  have h3 : ∀ e, (PacketHeader.bytes ⟨p.getPacketId, e⟩).length = PacketHeader.SIZE := by
    intro e
    cases e <;> simp [PacketHeader.bytes, ByteBuffer.u16Bytes, PacketHeader.SIZE]
  have h4 : ∀ v, (ByteBuffer.u32Bytes v).length = 4 := fun v => rfl
  have hread : ∀ (v : Nat) (tail : List Nat), v < 4294967296 →
      ByteBuffer.readU32 ⟨ByteBuffer.u32Bytes v ++ tail, 0⟩ =
        .ok (v, ⟨ByteBuffer.u32Bytes v ++ tail, 4⟩) := by
    intro v tail hv
    rw [ByteBuffer.readU32_u32Bytes, Nat.mod_eq_of_lt hv]
  cases he : p.getEncrypted with
  | false =>
    refine ⟨_, _, encodePacket_clear env s p w true hEnc he, ?_⟩
    have hsz : (ByteBuffer.u32Bytes (PacketHeader.SIZE + w.length) ++
        (PacketHeader.bytes ⟨p.getPacketId, false⟩ ++ w)).length - 4 = PacketHeader.SIZE + w.length := by
      simp [h3, h4]
    simp only [if_true, ByteBuffer.size, hsz, Bool.false_eq_true, if_false, Nat.add_zero]
    refine ⟨?_, trivial, ?_, fun hv => hread _ _ hv, by omega,
      fun b sp => writeLength_position b sp true⟩
    · rw [← h4 (PacketHeader.SIZE + w.length), List.take_left]
    · simp [h3, h4]
  | true =>
    obtain ⟨box, hs⟩ := Option.isSome_iff_exists.mp (hBox he)
    refine ⟨_, _, encodePacket_encrypted env s p w true box hEnc he hs, ?_⟩
    have hsz : (ByteBuffer.u32Bytes (PacketHeader.SIZE + w.length + env.PREFIX_LEN) ++
        (PacketHeader.bytes ⟨p.getPacketId, true⟩ ++
          (box.encryptInPlace w ++
            (w ++ List.replicate env.PREFIX_LEN 0).drop (box.encryptInPlace w).length).take
              (w.length + env.PREFIX_LEN))).length - 4 =
        PacketHeader.SIZE + w.length + env.PREFIX_LEN := by
      rw [List.length_append, List.length_append, ByteBuffer.sealed_length, h3, h4]
      omega
    simp only [if_true, ByteBuffer.size, hsz]
    refine ⟨?_, trivial, ?_, fun hv => hread _ _ hv, by omega,
      fun b sp => writeLength_position b sp true⟩
    · rw [← h4 (PacketHeader.SIZE + w.length + env.PREFIX_LEN), List.take_left]
    · rw [List.length_append, List.length_append, ByteBuffer.sealed_length, h3, h4]
      omega

/-- C2, witness: the TCP frame of the encrypted demo packet starts with the
length 8 = 3 + 3 + 2. -/
theorem encodePacket_tcp_length_field_witness :
    ∃ buf s', encodePacket demoEnv demoSecureSocket demoPacket {} true = (.ok (), buf, s') ∧
      buf.data.take 4 = ByteBuffer.u32Bytes (buf.size - 4) ∧
      buf.size - 4 = 8 ∧ buf.size = 4 + (buf.size - 4) ∧ buf.position = 10 := by
  obtain ⟨buf, s', h1, h2, h3, h4, _, h6, _⟩ :=
    encodePacket_tcp_length_field demoEnv demoSecureSocket demoPacket [1, 2, 3]
      (fun _ => rfl) (fun _ => rfl)
  exact ⟨buf, s', h1, h2, h3, h4, h6⟩

/-- A length field below the capacity: `recvPacketTCP` goes on to read the
payload from the stream. -/
theorem GameSocket.recvPacketTCP_reads_payload (env : Env σ ρ) (s : GameSocket σ ρ)
    (b0 b1 b2 b3 : Nat) (rest : List Nat)
    (hs : s.tcpSocket.inbound = b0 :: b1 :: b2 :: b3 :: rest)
    (hL : b0 + 256 * b1 + 65536 * b2 + 16777216 * b3 < DATA_BUF_SIZE) :
    ∃ extra, (recvPacketTCP env s).2.calls =
      s.calls ++ [.tcpRecvExact 4,
        .tcpRecvExact (b0 + 256 * b1 + 65536 * b2 + 16777216 * b3)] ++ extra := by
  by_cases hr : b0 + 256 * b1 + 65536 * b2 + 16777216 * b3 ≤ rest.length
  · have hd := decodePacket_logged env
      { s with
        tcpSocket := { s.tcpSocket with
          inbound := rest.drop (b0 + 256 * b1 + 65536 * b2 + 16777216 * b3) }
        calls := s.calls ++ [.tcpRecvExact 4,
          .tcpRecvExact (b0 + 256 * b1 + 65536 * b2 + 16777216 * b3)] }
      ⟨rest.take (b0 + 256 * b1 + 65536 * b2 + 16777216 * b3), 0⟩
    obtain ⟨extra, he⟩ := hd.2.2.2.2.2.2
    refine ⟨extra, ?_⟩
    simpa [recvPacketTCP, tcpRecvExact, record, hs, ByteBuffer.readU32, ByteBuffer.remaining,
      hL, hr] using he
  · refine ⟨[], ?_⟩
    simp [recvPacketTCP, tcpRecvExact, record, hs, ByteBuffer.readU32, ByteBuffer.remaining,
      hL, hr]

/-- C3: oversize rejection in `recvPacketTCP`.  On a stream that starts with the
four bytes of a length `L`, the call fails with "packet is too big, rejecting",
having made no call but the read of those four bytes (no payload read, nothing
of `decodePacket`) and leaving the stream right behind them, if and only if
`L >= DATA_BUF_SIZE`; and `DATA_BUF_SIZE` is 524288. -/
theorem recvPacketTCP_oversize_iff (env : Env σ ρ) (s : GameSocket σ ρ)
    (b0 b1 b2 b3 : Nat) (rest : List Nat)
    (hs : s.tcpSocket.inbound = b0 :: b1 :: b2 :: b3 :: rest) :
    DATA_BUF_SIZE = 524288 ∧
    (((recvPacketTCP env s).1 = .err "packet is too big, rejecting" ∧
        (recvPacketTCP env s).2.calls = s.calls ++ [.tcpRecvExact 4] ∧
        (recvPacketTCP env s).2.tcpSocket.inbound = rest) ↔
      DATA_BUF_SIZE ≤ b0 + 256 * b1 + 65536 * b2 + 16777216 * b3) := by
  refine ⟨rfl, ⟨fun h => ?_, fun h => ?_⟩⟩
  · by_contra hlt
    obtain ⟨extra, he⟩ := recvPacketTCP_reads_payload env s b0 b1 b2 b3 rest hs (by omega)
    have hlen := congrArg List.length (he.symm.trans h.2.1)
    simp at hlen
  · rw [recvPacketTCP_too_big env s b0 b1 b2 b3 rest hs h]
    exact ⟨rfl, rfl, rfl⟩

/-- C3, witness: a declared length of exactly 524288 (bytes `0, 0, 8, 0`) is
rejected and the payload stays unread. -/
theorem recvPacketTCP_oversize_witness :
    (recvPacketTCP demoEnv
        { demoSocket with tcpSocket := { inbound := [0, 0, 8, 0, 7, 0, 0, 1] } }).1 =
      .err "packet is too big, rejecting" ∧
    (recvPacketTCP demoEnv
        { demoSocket with tcpSocket := { inbound := [0, 0, 8, 0, 7, 0, 0, 1] } }).2.calls =
      [.tcpRecvExact 4] ∧
    (recvPacketTCP demoEnv
        { demoSocket with tcpSocket := { inbound := [0, 0, 8, 0, 7, 0, 0, 1] } }
      ).2.tcpSocket.inbound = [7, 0, 0, 1] :=
  (recvPacketTCP_oversize_iff demoEnv
    { demoSocket with tcpSocket := { inbound := [0, 0, 8, 0, 7, 0, 0, 1] } }
    0 0 8 0 [7, 0, 0, 1] rfl).2.mpr (by decide)

/-- C4: downgrade rejection.  A buffer whose header has `encrypted = false` and
whose id the registry resolves to a packet class that requires encryption makes
`decodePacket` return the "cleartext" error, with or without a cipher installed;
the only call made is the registry lookup, so the packet's own `decode` (and the
cipher) are not invoked. -/
theorem decodePacket_rejects_downgrade (env : Env σ ρ) (s : GameSocket σ ρ)
    (b buffer : ByteBuffer) (header : PacketHeader) (packet : Packet σ)
    (hh : b.readPacketHeader = .ok (header, buffer))
    (he : header.encrypted = false)
    (hm : env.matchPacket header.id = some packet)
    (hp : packet.getEncrypted = true) :
    (decodePacket env s b).1 =
      .err ("server sent a cleartext packet when expected an encrypted one ("
              ++ toString header.id ++ ")") ∧
    (decodePacket env s b).1.isErr = true ∧
    (decodePacket env s b).2 = s.record (.matchPacket header.id) ∧
    (decodePacket env s b).2.calls = s.calls ++ [.matchPacket header.id] := by
  rw [decodePacket_downgrade env s b buffer header packet hh hm hp he]
  exact ⟨rfl, rfl, rfl, rfl⟩

/-- C4, witness: packet `9` requires encryption; a cleartext header for it is
rejected on a socket with a cipher and on one without. -/
theorem decodePacket_rejects_downgrade_witness :
    (decodePacket demoEnv demoSecureSocket ⟨[9, 0, 0, 1, 2, 3], 0⟩).1 =
      .err "server sent a cleartext packet when expected an encrypted one (9)" ∧
    (decodePacket demoEnv demoSecureSocket ⟨[9, 0, 0, 1, 2, 3], 0⟩).2.calls = [.matchPacket 9] ∧
    (decodePacket demoEnv demoSocket ⟨[9, 0, 0, 1, 2, 3], 0⟩).1 =
      .err "server sent a cleartext packet when expected an encrypted one (9)" :=
  have h1 := decodePacket_rejects_downgrade demoEnv demoSecureSocket ⟨[9, 0, 0, 1, 2, 3], 0⟩
    ⟨[9, 0, 0, 1, 2, 3], 3⟩ ⟨9, false⟩ (rawPacket 9 true false []) rfl rfl rfl rfl
  have h2 := decodePacket_rejects_downgrade demoEnv demoSocket ⟨[9, 0, 0, 1, 2, 3], 0⟩
    ⟨[9, 0, 0, 1, 2, 3], 3⟩ ⟨9, false⟩ (rawPacket 9 true false []) rfl rfl rfl rfl
  ⟨h1.1, h1.2.2.2, h2.1⟩

/-- C5: unknown id.  A buffer whose header id the registry does not resolve makes
`decodePacket` return the error "invalid server-side packet: " followed by the
id, whatever the header's encrypted flag and the payload; the only call made is
the registry lookup, so neither the cipher nor a packet's `decode` is invoked. -/
theorem decodePacket_unknown_id (env : Env σ ρ) (s : GameSocket σ ρ)
    (b buffer : ByteBuffer) (header : PacketHeader)
    (hh : b.readPacketHeader = .ok (header, buffer))
    (hm : env.matchPacket header.id = none) :
    (decodePacket env s b).1 = .err ("invalid server-side packet: " ++ toString header.id) ∧
    (decodePacket env s b).1.isOk = false ∧
    (decodePacket env s b).2 = s.record (.matchPacket header.id) ∧
    (decodePacket env s b).2.calls = s.calls ++ [.matchPacket header.id] := by
  rw [decodePacket_unknown env s b buffer header hh hm]
  exact ⟨rfl, rfl, rfl, rfl⟩

/-- C5, witness: id `8` is not in the registry. -/
theorem decodePacket_unknown_id_witness :
    (decodePacket demoEnv demoSecureSocket ⟨[8, 0, 1, 170, 85, 3], 0⟩).1 =
      .err "invalid server-side packet: 8" ∧
    (decodePacket demoEnv demoSecureSocket ⟨[8, 0, 1, 170, 85, 3], 0⟩).2.calls =
      [.matchPacket 8] :=
  have h := decodePacket_unknown_id demoEnv demoSecureSocket ⟨[8, 0, 1, 170, 85, 3], 0⟩
    ⟨[8, 0, 1, 170, 85, 3], 3⟩ ⟨8, true⟩ rfl rfl
  ⟨h.1, h.2.2.2⟩

/-- C6: short buffer.  With fewer bytes left than the header size, `decodePacket`
does not return an error `Result`: the `unwrap()` of the failed header read
raises.  The registry is not consulted and no packet is produced. -/
theorem decodePacket_short_buffer_raises (env : Env σ ρ) (s : GameSocket σ ρ) (b : ByteBuffer)
    (h : b.remaining.length < PacketHeader.SIZE) :
    decodePacket env s b = (.thrown "unwrap of an Err: not enough data", s) ∧
    (decodePacket env s b).1.isErr = false ∧
    (decodePacket env s b).1.isOk = false := by
  rw [decodePacket_short env s b h]
  exact ⟨rfl, rfl, rfl⟩

/-- C6, at the failing inputs: an empty UDP datagram from a sender that is not the
server, and a TCP frame with declared length 0, both end in the raised
`unwrap()` and not in an error `Result`. -/
theorem decodePacket_short_buffer_raises_witness :
    decodePacket demoEnv demoSocket ⟨[], 0⟩ =
      (.thrown "unwrap of an Err: not enough data", demoSocket) ∧
    (recvPacketUDP demoEnv
        { demoSocket with udpSocket := { inbound := [⟨false, 0, []⟩] } } false).1.isErr = false ∧
    (recvPacketTCP demoEnv
        { demoSocket with tcpSocket := { inbound := [0, 0, 0, 0] } }).1.isErr = false :=
  ⟨(decodePacket_short_buffer_raises demoEnv demoSocket ⟨[], 0⟩ (by decide)).1, rfl, rfl⟩

/-- C7: no cipher, no encrypted traffic.  On a socket without a `CryptoBox`, for
a packet class that requires encryption: `encodePacket` returns the "no
cryptobox" error for both framings, having called only the packet's `encode`;
`decodePacket` returns an error for every buffer whose id resolves to that
class, having called only the registry.  The cipher and the packet's `decode`
are not invoked. -/
theorem no_cipher_no_encrypted_traffic (env : Env σ ρ) (s : GameSocket σ ρ) (p : Packet σ)
    (hc : s.cryptoBox = none) (hp : p.getEncrypted = true) :
    (∀ (buffer : ByteBuffer) (tcp : Bool),
      (encodePacket env s p buffer tcp).1 =
        .err "attempted to encrypt a packet when no cryptobox is initialized" ∧
      (encodePacket env s p buffer tcp).2.2 = s.record (.encode p.getPacketId)) ∧
    (∀ (b buffer : ByteBuffer) (header : PacketHeader),
      b.readPacketHeader = .ok (header, buffer) → env.matchPacket header.id = some p →
      (decodePacket env s b).1.isErr = true ∧
      (decodePacket env s b).2 = s.record (.matchPacket header.id)) := by
  constructor
  · intro buffer tcp
    simp [encodePacket, hp, hc, record]
  · intro b buffer header hh hm
    cases he : header.encrypted with
    | false =>
      rw [decodePacket_downgrade env s b buffer header p hh hm hp he]
      exact ⟨rfl, rfl⟩
    | true =>
      rw [decodePacket_nobox env s b buffer header p hh hm he hc]
      exact ⟨rfl, rfl⟩

/-- C7, witness: packet `9` on the socket without a cipher. -/
theorem no_cipher_no_encrypted_traffic_witness :
    (encodePacket demoEnv demoSocket (rawPacket 9 true false []) {} true).1 =
      .err "attempted to encrypt a packet when no cryptobox is initialized" ∧
    (encodePacket demoEnv demoSocket (rawPacket 9 true false []) {} false).1 =
      .err "attempted to encrypt a packet when no cryptobox is initialized" ∧
    (decodePacket demoEnv demoSocket ⟨[9, 0, 1, 170, 85, 3], 0⟩).1.isErr = true ∧
    (decodePacket demoEnv demoSocket ⟨[9, 0, 0, 1, 2, 3], 0⟩).1.isErr = true ∧
    (decodePacket demoEnv demoSocket ⟨[9, 0, 1, 170, 85, 3], 0⟩).2.calls = [.matchPacket 9] :=
  have h := no_cipher_no_encrypted_traffic demoEnv demoSocket (rawPacket 9 true false []) rfl rfl
  have d1 := h.2 ⟨[9, 0, 1, 170, 85, 3], 0⟩ ⟨[9, 0, 1, 170, 85, 3], 3⟩ ⟨9, true⟩ rfl rfl
  have d0 := h.2 ⟨[9, 0, 0, 1, 2, 3], 0⟩ ⟨[9, 0, 0, 1, 2, 3], 3⟩ ⟨9, false⟩ rfl rfl
  ⟨(h.1 {} true).1, (h.1 {} false).1, d1.1, d0.1, congrArg GameSocket.calls d1.2⟩

/-- C8: encryption region.  For an encrypted packet whose `encode` writes the
payload `w`, a cipher `box` installed and an empty buffer, `encodePacket`
succeeds; the buffer ends `PREFIX_LEN` bytes larger than the packet's `encode`
left it; the one cipher call is `encryptInPlace` at offset `PacketHeader::SIZE`
(plus 4 with TCP framing) with `rawSize` the number of bytes the packet's
`encode` wrote; in front of that offset the output holds the header bytes (id,
flag 1) and, for TCP, the length field, whatever the cipher does; without TCP
framing the output starts with the header; and a cipher that produces
`rawSize + PREFIX_LEN` bytes finds exactly these behind the header. -/
theorem encodePacket_encryption_region (env : Env σ ρ) (s : GameSocket σ ρ) (p : Packet σ)
    (w : List Nat) (tcp : Bool) (box : CryptoBox)
    (hEnc : ∀ b, p.encode p.fields b = b.rawWrite w)
    (henc : p.getEncrypted = true) (hbox : s.cryptoBox = some box) :
    ∃ buf s', encodePacket env s p {} tcp = (.ok (), buf, s') ∧
      buf.size =
        (p.encode p.fields
          ((if tcp then ByteBuffer.writeU32 {} 0 else {}).writePacketHeader
            ⟨p.getPacketId, true⟩)).size + env.PREFIX_LEN ∧
      (p.encode p.fields
          ((if tcp then ByteBuffer.writeU32 {} 0 else {}).writePacketHeader
            ⟨p.getPacketId, true⟩)).size -
        ((if tcp then ByteBuffer.writeU32 {} 0 else {}).writePacketHeader
            ⟨p.getPacketId, true⟩).size = w.length ∧
      s'.calls = s.calls ++
        [.encode p.getPacketId,
          .encryptInPlace (PacketHeader.SIZE + (if tcp then 4 else 0)) w.length] ∧
      (buf.data.drop (if tcp then 4 else 0)).take PacketHeader.SIZE =
        PacketHeader.bytes ⟨p.getPacketId, true⟩ ∧
      (tcp = true → buf.data.take 4 = ByteBuffer.u32Bytes (buf.size - 4)) ∧
      (tcp = false → buf.data.take PacketHeader.SIZE = PacketHeader.bytes ⟨p.getPacketId, true⟩) ∧
      ((box.encryptInPlace w).length = w.length + env.PREFIX_LEN →
        buf.data.drop (PacketHeader.SIZE + (if tcp then 4 else 0)) = box.encryptInPlace w) := by
  have h3 : (PacketHeader.bytes ⟨p.getPacketId, true⟩).length = PacketHeader.SIZE := by
    simp [PacketHeader.bytes, ByteBuffer.u16Bytes, PacketHeader.SIZE]
  have h4 : ∀ v, (ByteBuffer.u32Bytes v).length = 4 := fun v => rfl
  have hs := ByteBuffer.sealed_length (box.encryptInPlace w) w env.PREFIX_LEN
  refine ⟨_, _, encodePacket_encrypted env s p w tcp box hEnc henc hbox, ?_⟩
  cases tcp
  · have e0 : ({} : ByteBuffer) = ⟨[], ([] : List Nat).length⟩ := rfl
    simp only [Bool.false_eq_true, if_false, List.nil_append, hEnc, e0,
      ByteBuffer.header_payload, ByteBuffer.size, List.drop_zero, Nat.add_zero, record]
    refine ⟨?_, ?_, ?_, ?_, ?_, ?_, ?_⟩
    · simp only [List.length_append, hs, h3, List.length_nil]
      omega
    · simp [ByteBuffer.writePacketHeader, ByteBuffer.writeU16, ByteBuffer.writeBool,
        ByteBuffer.writeU8, ByteBuffer.rawWrite, ByteBuffer.u16Bytes, h3, PacketHeader.SIZE]
    · simp
    · rw [← h3, List.take_left]
    · intro h; cases h
    · intro _; rw [← h3, List.take_left]
    · intro hl
      rw [← h3, List.drop_left, ByteBuffer.sealed_eq _ _ _ hl]
  · have e0 : ByteBuffer.writeU32 {} 0 = ⟨[0, 0, 0, 0], ([0, 0, 0, 0] : List Nat).length⟩ := rfl
    simp only [if_true, hEnc, e0, ByteBuffer.header_payload, ByteBuffer.size, record]
    refine ⟨?_, ?_, ?_, ?_, ?_, ?_, ?_⟩
    · simp only [List.length_append, hs, h3, h4, List.length_cons, List.length_nil]
      omega
    · simp [ByteBuffer.writePacketHeader, ByteBuffer.writeU16, ByteBuffer.writeBool,
        ByteBuffer.writeU8, ByteBuffer.rawWrite, ByteBuffer.u16Bytes, h3, PacketHeader.SIZE]
    · simp
    · rw [← h4 (PacketHeader.SIZE + w.length + env.PREFIX_LEN), List.drop_left, ← h3,
        List.take_left]
    · intro _
      have hsz : (ByteBuffer.u32Bytes (PacketHeader.SIZE + w.length + env.PREFIX_LEN) ++
          (PacketHeader.bytes ⟨p.getPacketId, true⟩ ++
            (box.encryptInPlace w ++
              (w ++ List.replicate env.PREFIX_LEN 0).drop (box.encryptInPlace w).length).take
                (w.length + env.PREFIX_LEN))).length - 4 =
          PacketHeader.SIZE + w.length + env.PREFIX_LEN := by
        rw [List.length_append, List.length_append, hs, h3, h4]
        omega
      rw [hsz, ← h4 (PacketHeader.SIZE + w.length + env.PREFIX_LEN), List.take_left]
    · intro h; cases h
    · intro hl
      have e : PacketHeader.SIZE + 4 =
          (ByteBuffer.u32Bytes (PacketHeader.SIZE + w.length + env.PREFIX_LEN) ++
            PacketHeader.bytes ⟨p.getPacketId, true⟩).length := by
        rw [List.length_append, h3, h4]; omega
      rw [e, ← List.append_assoc, List.drop_left, ByteBuffer.sealed_eq _ _ _ hl]

/-- C8, witness: the TCP frame of the encrypted demo packet; the cipher is called
at offset 7 with 3 bytes, the header `9, 0, 1` stands at bytes 4 to 6. -/
theorem encodePacket_encryption_region_witness :
    ∃ buf s', encodePacket demoEnv demoSecureSocket demoPacket {} true = (.ok (), buf, s') ∧
      s'.calls = [.encode 9, .encryptInPlace 7 3] ∧
      (buf.data.drop 4).take 3 = [9, 0, 1] ∧
      buf.data.drop 7 = [170, 85, 3, 2, 1] := by
  obtain ⟨buf, s', h1, _, _, h4, h5, _, _, h8⟩ :=
    encodePacket_encryption_region demoEnv demoSecureSocket demoPacket [1, 2, 3] true demoBox
      (fun _ => rfl) rfl rfl
  exact ⟨buf, s', h1, h4, h5, h8 rfl⟩

/-- C9: marker dispatch in `recvPacketUDP`, for a received datagram `r` (byte
count not negative) with bytes `dgram`, `s.udpReceive.2` being the state after
the receive call.  (1) Not from the server, or `skipMarker`: the whole datagram
goes to `decodePacket`, cursor at 0.  Otherwise the first byte is read: an empty
datagram is an error; (2) `MARKER_UDP_PACKET`: the same buffer with the cursor
behind the marker goes to `decodePacket`; (3) `MARKER_UDP_FRAME`: it goes to
`pushFrameFromBuffer`, whose error is returned, whose empty result gives
`Ok(nullopt)`, and whose non-empty result goes to `decodePacket`; (4) any other
byte gives the "invalid marker" error and no further call. -/
theorem recvPacketUDP_marker_dispatch (env : Env σ ρ) (s : GameSocket σ ρ) (skipMarker : Bool)
    (r : RecvResult) (rest : List RecvResult)
    (hin : s.udpSocket.inbound = r :: rest) (hres : 0 ≤ r.result)
    (hdistinct : env.MARKER_UDP_PACKET ≠ env.MARKER_UDP_FRAME) :
    ((r.fromServer = false ∨ skipMarker = true) →
      recvPacketUDP env s skipMarker =
        received r.fromServer
          (decodePacket env s.udpReceive.2 ⟨r.data.take r.result.toNat, 0⟩)) ∧
    (r.fromServer = true → skipMarker = false →
      (r.data.take r.result.toNat = [] →
        recvPacketUDP env s skipMarker = (.err "not enough data", s.udpReceive.2)) ∧
      (∀ (m : Nat) (body : List Nat), r.data.take r.result.toNat = m :: body →
        (m = env.MARKER_UDP_PACKET →
          recvPacketUDP env s skipMarker =
            received true (decodePacket env s.udpReceive.2 ⟨m :: body, 1⟩)) ∧
        (m = env.MARKER_UDP_FRAME →
          recvPacketUDP env s skipMarker =
            match env.pushFrameFromBuffer s.udpBuffer ⟨m :: body, 1⟩ with
            | (.error e, udpBuffer) =>
              (.err e,
                { s.udpReceive.2.record (.pushFrameFromBuffer body) with udpBuffer := udpBuffer })
            | (.ok maybeBuf, udpBuffer) =>
              if maybeBuf = [] then
                (.ok none,
                  { s.udpReceive.2.record (.pushFrameFromBuffer body) with
                    udpBuffer := udpBuffer })
              else
                received true
                  (decodePacket env
                    { s.udpReceive.2.record (.pushFrameFromBuffer body) with
                      udpBuffer := udpBuffer }
                    ⟨maybeBuf, 0⟩)) ∧
        (m ≠ env.MARKER_UDP_PACKET → m ≠ env.MARKER_UDP_FRAME →
          recvPacketUDP env s skipMarker =
            (.err "invalid marker at the start of a udp packet", s.udpReceive.2)))) := by
  have hrecv : s.udpReceive =
      (r, { s.record .udpReceive with udpSocket := { s.udpSocket with inbound := rest } }) := by
    simp [udpReceive, record, hin]
  have hneg : ¬ r.result < 0 := by omega
  refine ⟨fun h => ?_, fun hf hk => ⟨fun he => ?_, fun m body hd => ⟨fun hm => ?_, fun hm => ?_,
    fun hp hfr => ?_⟩⟩⟩
  · have hc : (!r.fromServer || skipMarker) = true := by
      rcases h with h | h <;> simp [h]
    unfold recvPacketUDP
    rw [hrecv]
    simp only [hneg, if_false, hc, if_true]
    generalize decodePacket env _ _ = x
    rcases x with ⟨_ | _ | _, _⟩ <;> rfl
  · unfold recvPacketUDP
    rw [hrecv]
    simp [hneg, hf, hk, he, ByteBuffer.readU8, ByteBuffer.remaining, DecodeError.strerror]
  · unfold recvPacketUDP
    rw [hrecv]
    simp only [hneg, hf, hk, hd, ByteBuffer.readU8, ByteBuffer.remaining, if_false,
      Bool.not_true, Bool.or_self, Bool.false_eq_true, List.drop_zero, hm, if_true]
    generalize decodePacket env _ _ = x
    rcases x with ⟨_ | _ | _, _⟩ <;> simp [received, hf]
  · have hnp : ¬ m = env.MARKER_UDP_PACKET := by
      rw [hm]; exact fun h => hdistinct h.symm
    unfold recvPacketUDP
    rw [hrecv]
    simp only [hneg, hf, hk, hd, ByteBuffer.readU8, ByteBuffer.remaining, if_false,
      Bool.not_true, Bool.or_self, Bool.false_eq_true, List.drop_zero, hnp, hm, if_true]
    simp only [record, List.drop_one, List.tail_cons]
    rcases hpush : env.pushFrameFromBuffer s.udpBuffer
      { data := env.MARKER_UDP_FRAME :: body, position := 0 + 1 } with ⟨res, ub⟩
    have hne : ¬ env.MARKER_UDP_FRAME = env.MARKER_UDP_PACKET := fun h => hdistinct h.symm
    cases res with
    | error e => simp [hne]
    | ok maybeBuf =>
      by_cases hempty : maybeBuf = []
      · simp [hne, hempty]
      · have hie : maybeBuf.isEmpty = false := by
          cases maybeBuf with
          | nil => exact absurd rfl hempty
          | cons _ _ => rfl
        simp only [hne, if_false, hempty, hie, Bool.not_false, if_true, Nat.zero_add,
          List.drop_one, List.tail_cons, List.append_assoc, List.singleton_append]
        generalize decodePacket env _ _ = x
        rcases x with ⟨_ | _ | _, _⟩ <;> simp [received]
  · unfold recvPacketUDP
    rw [hrecv]
    simp [hneg, hf, hk, hd, ByteBuffer.readU8, ByteBuffer.remaining, hp, hfr]

/-- C9, witness: a datagram from the server that starts with `MARKER_UDP_FRAME` and
does not complete a message goes to the reassembler and gives `Ok(nullopt)`;
`decodePacket` is not reached. -/
theorem recvPacketUDP_marker_dispatch_witness :
    (recvPacketUDP demoEnv demoFrameSocket false).1 = .ok none ∧
    (recvPacketUDP demoEnv demoFrameSocket false).2.calls =
      [.udpReceive, .pushFrameFromBuffer [0, 7, 0]] ∧
    (recvPacketUDP demoEnv demoFrameSocket false).2.udpBuffer = [7, 0] := by
  have h := ((recvPacketUDP_marker_dispatch demoEnv demoFrameSocket false
    ⟨true, 4, [167, 0, 7, 0]⟩ [] rfl (by decide) (by decide)).2 rfl rfl).2 167 [0, 7, 0] rfl
  rw [h.2.1 rfl]
  exact ⟨rfl, rfl, rfl⟩

/-- What `poll` does to the state: one poll call is recorded, no socket is read,
and a result of `Tcp` or `Both` leaves the UDP socket as it was. -/
theorem GameSocket.poll_frame (env : Env σ ρ) (s : GameSocket σ ρ) (timeoutMs : Int) :
    (poll env s timeoutMs).2.tcpSocket = s.tcpSocket ∧
    (poll env s timeoutMs).2.udpSocket.inbound = s.udpSocket.inbound ∧
    ((poll env s timeoutMs).2.calls = s.calls ++ [.udpPoll timeoutMs] ∨
      (poll env s timeoutMs).2.calls = s.calls ++ [.sysPoll true true timeoutMs]) ∧
    (((poll env s timeoutMs).1 = .ok .Tcp ∨ (poll env s timeoutMs).1 = .ok .Both) →
      (poll env s timeoutMs).2.udpSocket = s.udpSocket) := by
  cases hc : s.tcpSocket.connected with
  | false =>
    cases hp : s.udpSocket.polls with
    | nil => simp [poll, udpPoll, record, hc, hp]
    | cons r rest =>
      rcases r with e | b
      · simp [poll, udpPoll, record, hc, hp]
      · cases b <;> simp [poll, udpPoll, record, hc, hp]
  | true =>
    cases hp : s.sysPolls with
    | nil => simp [poll, sysPoll, record, hc, hp]
    | cons r rest =>
      by_cases hr : r.result = -1
      · simp [poll, sysPoll, record, hc, hp, hr]
      · cases ht : r.tcp <;> cases hu : r.udp <;> simp [poll, sysPoll, record, hc, hp, hr, ht, hu]

theorem GameSocket.tcpRecvExact_udpSocket (s : GameSocket σ ρ) (n : Nat) :
    (s.tcpRecvExact n).2.udpSocket = s.udpSocket := by
  unfold tcpRecvExact
  simp only [record]
  split <;> rfl

theorem GameSocket.recvPacketTCP_udpSocket (env : Env σ ρ) (s : GameSocket σ ρ) :
    (recvPacketTCP env s).2.udpSocket = s.udpSocket := by
  have h1 := tcpRecvExact_udpSocket s 4
  unfold recvPacketTCP
  rcases hr1 : s.tcpRecvExact 4 with ⟨r1, s1⟩
  rw [hr1] at h1
  cases r1 with
  | error e => exact h1
  | ok bytes =>
    simp only []
    split
    · rename_i hlt
      have h2 := tcpRecvExact_udpSocket s1
        (match ByteBuffer.readU32 ⟨bytes, 0⟩ with
          | .ok (v, _) => v
          | .error _ => 0)
      rcases hr2 : s1.tcpRecvExact
        (match ByteBuffer.readU32 ⟨bytes, 0⟩ with
          | .ok (v, _) => v
          | .error _ => 0) with ⟨r2, s2⟩
      rw [hr2] at h2
      cases r2 with
      | error e => exact h2.trans h1
      | ok bytes2 =>
        exact ((decodePacket_logged env s2 _).2.1.trans h2).trans h1
    · exact h1

theorem GameSocket.udpReceive_tcpSocket (s : GameSocket σ ρ) :
    s.udpReceive.2.tcpSocket = s.tcpSocket ∧ s.udpReceive.2.udpSocket.polls = s.udpSocket.polls := by
  unfold udpReceive
  simp only [record]
  split <;> exact ⟨rfl, rfl⟩

theorem GameSocket.udpPoll_tcpSocket (s : GameSocket σ ρ) (t : Int) :
    (s.udpPoll t).2.tcpSocket = s.tcpSocket ∧
    (s.udpPoll t).2.udpSocket.polls.length ≤ s.udpSocket.polls.length - 1 := by
  unfold udpPoll
  simp only [record]
  split
  · rename_i h
    simp [h]
  · rename_i h
    simp [h]

theorem GameSocket.recvPacketUDP_tcpSocket (env : Env σ ρ) (s : GameSocket σ ρ) (skip : Bool) :
    (recvPacketUDP env s skip).2.tcpSocket = s.tcpSocket ∧
    (recvPacketUDP env s skip).2.udpSocket.polls = s.udpSocket.polls := by
  have h1 := udpReceive_tcpSocket s
  unfold recvPacketUDP
  rcases hr : s.udpReceive with ⟨r, s1⟩
  rw [hr] at h1
  simp only []
  have key : ∀ (f : Bool) (t : GameSocket σ ρ) (b : ByteBuffer),
      t.tcpSocket = s.tcpSocket ∧ t.udpSocket.polls = s.udpSocket.polls →
      (received f (decodePacket env t b)).2.tcpSocket = s.tcpSocket ∧
      (received f (decodePacket env t b)).2.udpSocket.polls = s.udpSocket.polls := by
    intro f t b ht
    have hl := decodePacket_logged env t b
    rcases hx : decodePacket env t b with ⟨_ | _ | _, t2⟩ <;> rw [hx] at hl <;>
      simp only [received] <;> exact ⟨hl.1.trans ht.1, (congrArg UdpSocket.polls hl.2.1).trans ht.2⟩
  have wrap : ∀ (f : Bool) (x : Res (Packet σ) × GameSocket σ ρ),
      (match x with
        | (.err e, self) => ((.err e, self) : Res (Option (ReceivedPacket σ)) × GameSocket σ ρ)
        | (.thrown w, self) => (.thrown w, self)
        | (.ok packet, self) =>
          (.ok (some { packet := some packet, fromConnected := f }), self)) = received f x := by
    intro f x
    rcases x with ⟨_ | _ | _, _⟩ <;> rfl
  simp only [wrap]
  split
  · exact h1
  · split
    · exact key _ _ _ h1
    · split
      · exact h1
      · split
        · exact key _ _ _ h1
        · split
          · simp only [record]
            split
            · exact h1
            · split
              · exact key _ _ _ h1
              · exact h1
          · exact h1

theorem GameSocket.recvPacketFrames_tcpSocket (env : Env σ ρ) (fuel : Nat) (s : GameSocket σ ρ) :
    (recvPacketFrames env fuel s).2.tcpSocket = s.tcpSocket := by
  induction fuel generalizing s with
  | zero => rfl
  | succ n ih =>
    have h1 := (udpPoll_tcpSocket s 25).1
    unfold recvPacketFrames
    rcases hp : s.udpPoll 25 with ⟨r, s1⟩
    rw [hp] at h1
    cases r with
    | error e => exact h1
    | ok pollres =>
      cases pollres with
      | false => exact h1
      | true =>
        have h2 := (recvPacketUDP_tcpSocket env s1 false).1
        simp only [Bool.not_true, Bool.false_eq_true, if_false]
        rcases hu : recvPacketUDP env s1 false with ⟨_ | _ | _, s2⟩ <;> rw [hu] at h2
        · rename_i v
          cases v with
          | none => exact ((ih s2).trans h2).trans h1
          | some out => exact h2.trans h1
        · exact h2.trans h1
        · exact h2.trans h1

/-- The loop of `recvPacket` does not depend on its fuel once the fuel exceeds
the number of poll results to come: every round uses one up. -/
theorem GameSocket.recvPacketFrames_fuel (env : Env σ ρ) (fuel fuel' : Nat) (s : GameSocket σ ρ)
    (h : s.udpSocket.polls.length < fuel) (h' : s.udpSocket.polls.length < fuel') :
    recvPacketFrames env fuel s = recvPacketFrames env fuel' s := by
  induction fuel generalizing s fuel' with
  | zero => omega
  | succ n ih =>
    cases fuel' with
    | zero => omega
    | succ m =>
      have h1 := (udpPoll_tcpSocket s 25).2
      unfold recvPacketFrames
      rcases hp : s.udpPoll 25 with ⟨r, s1⟩
      rw [hp] at h1
      cases r with
      | error e => rfl
      | ok pollres =>
        cases pollres with
        | false => rfl
        | true =>
          have hnil : s.udpSocket.polls ≠ [] := by
            intro hn
            simp [udpPoll, record, hn] at hp
          have hpos : 0 < s.udpSocket.polls.length := List.length_pos.mpr hnil
          have h2 := (recvPacketUDP_tcpSocket env s1 false).2
          simp only [Bool.not_true, Bool.false_eq_true, if_false]
          rcases hu : recvPacketUDP env s1 false with ⟨_ | _ | _, s2⟩ <;> rw [hu] at h2
          · rename_i v
            cases v with
            | none =>
              simp only []
              have hl : s2.udpSocket.polls.length = s1.udpSocket.polls.length :=
                congrArg List.length h2
              exact ih m s2 (by simp only [] at h1; omega) (by simp only [] at h1; omega)
            | some out => rfl

/-- C10: dispatch of `recvPacket` on the result of `poll`, `s1` being the state
after the poll.  `None`: the "timed out" error, and the state is `s1`, in which
only the poll call was added and no socket was read.  `Tcp` or `Both`: the
outcome is that of `recvPacketTCP` (its packet with `fromConnected = true`, its
error behind "recvPacketTCP failed: "), and the UDP socket is as before the call.
`Udp`: the call goes to `recvPacketUDP` and from there, after an unfinished
frame, to the frame loop; the TCP socket is as before the call. -/
theorem recvPacket_dispatch (env : Env σ ρ) (s s1 : GameSocket σ ρ) (timeoutMs : Int)
    (pollResult : PollResult)
    (hpoll : poll env s timeoutMs = (.ok pollResult, s1)) :
    (pollResult = .None →
      recvPacket env s timeoutMs = (.err "timed out", s1) ∧
      s1.tcpSocket = s.tcpSocket ∧ s1.udpSocket.inbound = s.udpSocket.inbound ∧
      (s1.calls = s.calls ++ [.udpPoll timeoutMs] ∨
        s1.calls = s.calls ++ [.sysPoll true true timeoutMs])) ∧
    ((pollResult = .Tcp ∨ pollResult = .Both) →
      recvPacket env s timeoutMs =
        (match recvPacketTCP env s1 with
          | (.ok pkt, s2) => (.ok { packet := some pkt, fromConnected := true }, s2)
          | (.err e, s2) => (.err ("recvPacketTCP failed: " ++ e), s2)
          | (.thrown w, s2) => (.thrown w, s2)) ∧
      (recvPacket env s timeoutMs).2.udpSocket = s.udpSocket) ∧
    (pollResult = .Udp →
      recvPacket env s timeoutMs =
        (match recvPacketUDP env s1 false with
          | (.ok (some out), s2) => (.ok out, s2)
          | (.ok none, s2) => recvPacketFrames env (s2.udpSocket.polls.length + 1) s2
          | (.err e, s2) => (.err ("recvPacketUDP failed: " ++ e), s2)
          | (.thrown w, s2) => (.thrown w, s2)) ∧
      (recvPacket env s timeoutMs).2.tcpSocket = s.tcpSocket) := by
  have hf := poll_frame env s timeoutMs
  rw [hpoll] at hf
  obtain ⟨hf1, hf2, hf3, hf4⟩ := hf
  refine ⟨fun hn => ?_, fun ht => ?_, fun hu => ?_⟩
  · subst hn
    refine ⟨?_, hf1, hf2, hf3⟩
    simp [recvPacket, hpoll]
  · have hne : pollResult ≠ .None := by rcases ht with h | h <;> rw [h] <;> decide
    have hnu : pollResult ≠ .Udp := by rcases ht with h | h <;> rw [h] <;> decide
    have hudp : s1.udpSocket = s.udpSocket :=
      hf4 (by rcases ht with h | h <;> simp [h])
    have heq : recvPacket env s timeoutMs =
        (match recvPacketTCP env s1 with
          | (.ok pkt, s2) => (.ok { packet := some pkt, fromConnected := true }, s2)
          | (.err e, s2) => (.err ("recvPacketTCP failed: " ++ e), s2)
          | (.thrown w, s2) => (.thrown w, s2)) := by
      simp only [recvPacket, hpoll, hne, if_false, ne_eq, hnu, not_false_eq_true, if_true]
    refine ⟨heq, ?_⟩
    rw [heq]
    have h2 := recvPacketTCP_udpSocket env s1
    rcases hx : recvPacketTCP env s1 with ⟨_ | _ | _, s2⟩ <;> rw [hx] at h2 <;>
      exact h2.trans hudp
  · subst hu
    have heq : recvPacket env s timeoutMs =
        (match recvPacketUDP env s1 false with
          | (.ok (some out), s2) => (.ok out, s2)
          | (.ok none, s2) => recvPacketFrames env (s2.udpSocket.polls.length + 1) s2
          | (.err e, s2) => (.err ("recvPacketUDP failed: " ++ e), s2)
          | (.thrown w, s2) => (.thrown w, s2)) := by
      simp only [recvPacket, hpoll]
      rcases recvPacketUDP env s1 false with ⟨_ | _ | _, s2⟩
      · rename_i v
        cases v <;> simp
      · simp
      · simp
    refine ⟨heq, ?_⟩
    rw [heq]
    have h2 := (recvPacketUDP_tcpSocket env s1 false).1
    rcases hx : recvPacketUDP env s1 false with ⟨_ | _ | _, s2⟩ <;> rw [hx] at h2
    · rename_i v
      cases v with
      | none => exact ((recvPacketFrames_tcpSocket env _ s2).trans h2).trans hf1
      | some out => exact h2.trans hf1
    · exact h2.trans hf1
    · exact h2.trans hf1

/-- C10, witness: with both transports ready the packet read from the TCP stream
is returned, marked `fromConnected`, and the waiting datagram stays on the UDP
socket. -/
theorem recvPacket_dispatch_witness :
    (recvPacket demoEnv demoBothSocket (-1)).1 =
      .ok { packet := some (rawPacket 7 false true [1, 2, 3]), fromConnected := true } ∧
    (recvPacket demoEnv demoBothSocket (-1)).2.udpSocket = demoBothSocket.udpSocket := by
  have h := (recvPacket_dispatch demoEnv demoBothSocket (poll demoEnv demoBothSocket (-1)).2 (-1)
    .Both rfl).2.1 (Or.inr rfl)
  refine ⟨?_, h.2⟩
  rw [h.1]
  rfl

theorem GameSocket.tcpConnect_calls (s : GameSocket σ ρ) (a : NetworkAddress) :
    (s.tcpConnect a).2.calls = s.calls ++ [.tcpConnect a] ∧
    (s.tcpConnect a).2.cryptoBox = s.cryptoBox ∧
    ((s.tcpConnect a).1 = .ok () → (s.tcpConnect a).2.tcpSocket.connected = true) := by
  unfold tcpConnect
  simp only [record]
  split <;> simp

theorem GameSocket.udpConnect_calls (s : GameSocket σ ρ) (a : NetworkAddress) :
    (s.udpConnect a).2.calls = s.calls ++ [.udpConnect a] ∧
    (s.udpConnect a).2.cryptoBox = s.cryptoBox ∧
    (s.udpConnect a).2.tcpSocket = s.tcpSocket ∧
    ((s.udpConnect a).1 = .ok () → (s.udpConnect a).2.udpSocket.connected = true) := by
  unfold udpConnect
  simp only [record]
  split <;> simp

theorem GameSocket.tcpSend_calls (s : GameSocket σ ρ) (bytes : List Nat) :
    (s.tcpSend bytes).2.calls = s.calls ++ [.tcpSend bytes] ∧
    (s.tcpSend bytes).2.cryptoBox = s.cryptoBox ∧
    (s.tcpSend bytes).2.tcpSocket.connected = s.tcpSocket.connected ∧
    (s.tcpSend bytes).2.udpSocket = s.udpSocket := by
  unfold tcpSend
  simp [record]

theorem GameSocket.tcpSendAll_calls (s : GameSocket σ ρ) (bytes : List Nat) :
    (s.tcpSendAll bytes).2.calls = s.calls ++ [.tcpSendAll bytes] ∧
    (s.tcpSendAll bytes).2.cryptoBox = s.cryptoBox := by
  unfold tcpSendAll
  simp [record]

theorem GameSocket.udpSend_calls (s : GameSocket σ ρ) (bytes : List Nat) :
    (s.udpSend bytes).2.calls = s.calls ++ [.udpSend bytes] ∧
    (s.udpSend bytes).2.cryptoBox = s.cryptoBox := by
  unfold udpSend
  simp [record]

theorem GameSocket.udpSendTo_calls (s : GameSocket σ ρ) (bytes : List Nat) (a : NetworkAddress) :
    (s.udpSendTo bytes a).2.calls = s.calls ++ [.udpSendTo bytes a] ∧
    (s.udpSendTo bytes a).2.cryptoBox = s.cryptoBox := by
  unfold udpSendTo
  simp only [record]
  split <;> exact ⟨rfl, rfl⟩

/-- C12: handshake marker.  `r1`, `r2`, `r3` being the results of the TCP
connect, of the UDP connect after it and of the send of the marker byte after
both: `connect` returns the first error among them, and success when there is
none; a failed TCP connect leaves only the TCP connect in the call record, a
failed UDP connect only the two connects (no byte is sent); a successful
`connect` has made exactly the three calls, the last one the send of the one
byte `MARKER_CONN_RECOVERY` (recovering) or `MARKER_CONN_INITIAL` (not), and
leaves both sockets connected. -/
theorem connect_handshake (env : Env σ ρ) (s s1 s2 s3 : GameSocket σ ρ)
    (address : NetworkAddress) (isRecovering : Bool) (r1 r2 r3 : Except String Unit)
    (h1 : s.tcpConnect address = (r1, s1))
    (h2 : s1.udpConnect address = (r2, s2))
    (h3 : s2.tcpSend
        [if isRecovering then env.MARKER_CONN_RECOVERY else env.MARKER_CONN_INITIAL] = (r3, s3)) :
    (∀ e, r1 = .error e →
      connect env s address isRecovering = (.err e, s1) ∧
      s1.calls = s.calls ++ [.tcpConnect address]) ∧
    (r1 = .ok () → ∀ e, r2 = .error e →
      connect env s address isRecovering = (.err e, s2) ∧
      s2.calls = s.calls ++ [.tcpConnect address, .udpConnect address]) ∧
    (r1 = .ok () → r2 = .ok () → ∀ e, r3 = .error e →
      connect env s address isRecovering = (.err e, s3)) ∧
    (r1 = .ok () → r2 = .ok () → r3 = .ok () →
      connect env s address isRecovering = (.ok (), s3)) ∧
    ((connect env s address isRecovering).1 = .ok () ↔
      r1 = .ok () ∧ r2 = .ok () ∧ r3 = .ok ()) ∧
    ((connect env s address isRecovering).1 = .ok () →
      (connect env s address isRecovering).2.calls =
        s.calls ++ [.tcpConnect address, .udpConnect address,
          .tcpSend [if isRecovering then env.MARKER_CONN_RECOVERY
            else env.MARKER_CONN_INITIAL]] ∧
      (connect env s address isRecovering).2.tcpSocket.connected = true ∧
      (connect env s address isRecovering).2.udpSocket.connected = true) := by
  have c1 := tcpConnect_calls s address
  have c2 := udpConnect_calls s1 address
  have c3 := tcpSend_calls s2
    [if isRecovering then env.MARKER_CONN_RECOVERY else env.MARKER_CONN_INITIAL]
  rw [h1] at c1
  rw [h2] at c2
  rw [h3] at c3
  simp only [] at c1 c2 c3
  rcases r1 with e1 | u1
  · simp [connect, h1, c1.1]
  · rcases r2 with e2 | u2
    · simp [connect, h1, h2, c1.1, c2.1]
    · rcases r3 with e3 | u3
      · simp [connect, h1, h2, h3]
      · simp [connect, h1, h2, h3, c3.1, c2.1, c1.1, c3.2.2.1, c3.2.2.2, c2.2.2.1, c1.2.2 rfl,
          c2.2.2.2 rfl]

/-- C12, witness: a fresh connect that is not a recovery sends the one byte
`MARKER_CONN_INITIAL` (224) after the two connects. -/
theorem connect_handshake_witness :
    (connect demoEnv demoSocket 5 false).1 = .ok () ∧
    (connect demoEnv demoSocket 5 false).2.calls =
      [.tcpConnect 5, .udpConnect 5, .tcpSend [224]] ∧
    (connect demoEnv demoSocket 5 true).2.calls =
      [.tcpConnect 5, .udpConnect 5, .tcpSend [225]] :=
  have h := connect_handshake demoEnv demoSocket _ _ _ 5 false _ _ _ rfl rfl rfl
  have h' := connect_handshake demoEnv demoSocket _ _ _ 5 true _ _ _ rfl rfl rfl
  ⟨h.2.2.2.2.1.mpr ⟨rfl, rfl, rfl⟩, (h.2.2.2.2.2 (h.2.2.2.2.1.mpr ⟨rfl, rfl, rfl⟩)).1,
    (h'.2.2.2.2.2 (h'.2.2.2.2.1.mpr ⟨rfl, rfl, rfl⟩)).1⟩

/-- C15: classification by `poll(timeoutMs)`.  TCP not connected: the call is
the poll of the UDP socket alone (the one call recorded), its result is `Udp`
when that reports readable and `None` when not, never `Tcp` or `Both`.  TCP
connected and the OS poll not failed: the result is `Both`, `Tcp`, `Udp` or
`None` exactly as the `POLLIN` bits of the two descriptors say. -/
theorem poll_classification (env : Env σ ρ) (s : GameSocket σ ρ) (timeoutMs : Int) :
    (s.tcpSocket.connected = false →
      poll env s timeoutMs =
        (match s.udpPoll timeoutMs with
          | (.error e, s1) => (.err e, s1)
          | (.ok res, s1) => (.ok (if res then PollResult.Udp else PollResult.None), s1)) ∧
      (poll env s timeoutMs).2.calls = s.calls ++ [.udpPoll timeoutMs] ∧
      (poll env s timeoutMs).1 ≠ .ok .Tcp ∧ (poll env s timeoutMs).1 ≠ .ok .Both ∧
      (∀ res, (s.udpPoll timeoutMs).1 = .ok res →
        ((poll env s timeoutMs).1 = .ok .Udp ↔ res = true) ∧
        ((poll env s timeoutMs).1 = .ok .None ↔ res = false))) ∧
    (s.tcpSocket.connected = true → (s.sysPoll true true timeoutMs).1.result ≠ -1 →
      (poll env s timeoutMs).2 = (s.sysPoll true true timeoutMs).2 ∧
      (poll env s timeoutMs).2.calls = s.calls ++ [.sysPoll true true timeoutMs] ∧
      ((poll env s timeoutMs).1 = .ok .Both ↔
        (s.sysPoll true true timeoutMs).1.tcp = true ∧
        (s.sysPoll true true timeoutMs).1.udp = true) ∧
      ((poll env s timeoutMs).1 = .ok .Tcp ↔
        (s.sysPoll true true timeoutMs).1.tcp = true ∧
        (s.sysPoll true true timeoutMs).1.udp = false) ∧
      ((poll env s timeoutMs).1 = .ok .Udp ↔
        (s.sysPoll true true timeoutMs).1.tcp = false ∧
        (s.sysPoll true true timeoutMs).1.udp = true) ∧
      ((poll env s timeoutMs).1 = .ok .None ↔
        (s.sysPoll true true timeoutMs).1.tcp = false ∧
        (s.sysPoll true true timeoutMs).1.udp = false)) := by
  constructor
  · intro hc
    have hcalls : (s.udpPoll timeoutMs).2.calls = s.calls ++ [.udpPoll timeoutMs] := by
      unfold udpPoll
      simp only [record]
      split <;> rfl
    unfold poll
    simp only [hc, Bool.not_false, if_true]
    rcases hp : s.udpPoll timeoutMs with ⟨r, s1⟩
    rw [hp] at hcalls
    simp only [] at hcalls
    rcases r with e | b
    · simp [hcalls]
    · cases b <;> simp [hcalls]
  · intro hc hres
    have hcalls : (s.sysPoll true true timeoutMs).2.calls =
        s.calls ++ [.sysPoll true true timeoutMs] := by
      unfold sysPoll
      simp only [record]
      split <;> rfl
    unfold poll
    simp only [hc, Bool.not_true, Bool.false_eq_true, if_false]
    rcases hp : s.sysPoll true true timeoutMs with ⟨fds, s1⟩
    rw [hp] at hcalls hres
    simp only [] at hres hcalls
    simp only [hres, if_false]
    cases ht : fds.tcp <;> cases hu : fds.udp <;> simp [hcalls]

/-- C15, witness: on the connected demo socket the OS poll reports both
descriptors readable and `poll` gives `Both`; on the fresh socket, which is not
connected, `poll` gives `None` after polling the UDP socket alone. -/
theorem poll_classification_witness :
    (poll demoEnv demoBothSocket (-1)).1 = .ok .Both ∧
    (poll demoEnv demoSocket 0).1 = .ok .None ∧
    (poll demoEnv demoSocket 0).2.calls = [.udpPoll 0] :=
  have h := (poll_classification demoEnv demoBothSocket (-1)).2 rfl (by decide)
  have h' := (poll_classification demoEnv demoSocket 0).1 rfl
  ⟨h.2.2.1.mpr ⟨rfl, rfl⟩, ((h'.2.2.2.2 false rfl).2).mpr rfl, h'.2.1⟩

/-- C18: `sendRecoveryData` hands to the TCP stream, in one `sendAll`, exactly
the four bytes of `accountId` as a signed 32-bit integer followed by the four
bytes of `secretKey` as an unsigned 32-bit integer: eight bytes, nothing in
front (no length, no header, no marker) and nothing behind; the call returns
what that `sendAll` returns. -/
theorem sendRecoveryData_bytes (s : GameSocket σ ρ) (accountId : Int) (secretKey : Nat) :
    sendRecoveryData s accountId secretKey =
      sent (s.tcpSendAll (ByteBuffer.i32Bytes accountId ++ ByteBuffer.u32Bytes secretKey)) ∧
    (sendRecoveryData s accountId secretKey).2.calls =
      s.calls ++ [.tcpSendAll (ByteBuffer.i32Bytes accountId ++ ByteBuffer.u32Bytes secretKey)] ∧
    (ByteBuffer.i32Bytes accountId ++ ByteBuffer.u32Bytes secretKey).length = 8 ∧
    (ByteBuffer.i32Bytes accountId).length = 4 ∧
    (ByteBuffer.u32Bytes secretKey).length = 4 ∧
    ByteBuffer.i32Bytes accountId = ByteBuffer.u32Bytes (accountId % 4294967296).toNat := by
  have hb : (ByteBuffer.writeU32 (ByteBuffer.writeI32 {} accountId) secretKey).data =
      ByteBuffer.i32Bytes accountId ++ ByteBuffer.u32Bytes secretKey := by
    simp [ByteBuffer.writeU32, ByteBuffer.writeI32, ByteBuffer.rawWrite, ByteBuffer.i32Bytes,
      ByteBuffer.u32Bytes]
  have hc := (tcpSendAll_calls s
    (ByteBuffer.i32Bytes accountId ++ ByteBuffer.u32Bytes secretKey)).1
  have he : sendRecoveryData s accountId secretKey =
      sent (s.tcpSendAll (ByteBuffer.i32Bytes accountId ++ ByteBuffer.u32Bytes secretKey)) := by
    unfold sendRecoveryData
    simp only [hb]
    rcases s.tcpSendAll (ByteBuffer.i32Bytes accountId ++ ByteBuffer.u32Bytes secretKey)
      with ⟨_ | _, _⟩ <;> rfl
  refine ⟨he, ?_, rfl, rfl, rfl, rfl⟩
  rw [he]
  rcases hx : s.tcpSendAll (ByteBuffer.i32Bytes accountId ++ ByteBuffer.u32Bytes secretKey)
    with ⟨_ | _, _⟩ <;> rw [hx] at hc <;> exact hc

/-- C18, witness: account id `-1` and secret key `258` go out as the eight bytes
`255, 255, 255, 255, 2, 1, 0, 0`. -/
theorem sendRecoveryData_bytes_witness :
    (sendRecoveryData demoSocket (-1) 258).2.calls =
      [.tcpSendAll [255, 255, 255, 255, 2, 1, 0, 0]] ∧
    (sendRecoveryData demoSocket (-1) 258).1 = .ok () :=
  have h := sendRecoveryData_bytes demoSocket (-1) 258
  ⟨h.2.1, congrArg Prod.fst h.1⟩

theorem GameSocket.dumped_calls (s : GameSocket σ ρ) (id : Nat) (buf : ByteBuffer) :
    (s.dumped id buf).calls = s.calls ∧ (s.dumped id buf).cryptoBox = s.cryptoBox := by
  unfold dumped dumpPacket
  split <;> exact ⟨rfl, rfl⟩

/-- The body of `sendPacket` on a connected socket, by the result of
`encodePacket`. -/
theorem GameSocket.sendPacket_connected (env : Env σ ρ) (s : GameSocket σ ρ) (p : Packet σ)
    (protocol : Protocol) (hc : s.isConnected = true) :
    sendPacket env s p protocol =
      match encodePacket env s p {} (usesTcp protocol p) with
      | (.err e, _, s1) => (.err e, s1)
      | (.thrown w, _, s1) => (.thrown w, s1)
      | (.ok _, buf, s1) =>
        if usesTcp protocol p then
          sent ((s1.dumped p.getPacketId buf).tcpSendAll buf.data)
        else sent ((s1.dumped p.getPacketId buf).udpSend buf.data) := by
  unfold sendPacket
  simp only [hc, Bool.not_true, Bool.false_eq_true, if_false]
  cases protocol <;> simp only [usesTcp] <;>
  · rcases encodePacket env s p {} _ with ⟨_ | _ | _, buf, s1⟩
    · simp only [dumped]
      split
      · rcases tcpSendAll _ _ with ⟨_ | _, _⟩ <;> rfl
      · rcases udpSend _ _ with ⟨_ | _, _⟩ <;> rfl
    · rfl
    · rfl

theorem GameSocket.sent_calls {α : Type} (x : Except String α × GameSocket σ ρ) :
    (sent x).2 = x.2 := by
  rcases x with ⟨_ | _, _⟩ <;> rfl

/-- C13: transport selection of `sendPacket`.  Not connected: the call fails and
the state is untouched (nothing encoded, nothing written), for every protocol.
Connected: the packet is encoded with `tcp = usesTcp protocol p`, which is true
exactly for `Tcp` and for `Unspecified` with `getUseTcp()`; after a successful
encode the one further call is `sendAll` of the buffer on the TCP socket when it
is true and `send` of the buffer on the UDP socket when it is false, and the
result is that of this write; a failed encode is returned with nothing written.
`sendPacketTCP` and `sendPacketUDP` are `sendPacket` with `Tcp` and `Udp`. -/
theorem sendPacket_transport (env : Env σ ρ) (s : GameSocket σ ρ) (p : Packet σ)
    (protocol : Protocol) :
    (s.isConnected = false →
      sendPacket env s p protocol =
        (.err "attempting to send a packet while disconnected", s)) ∧
    (usesTcp protocol p = true ↔
      protocol = .Tcp ∨ (protocol = .Unspecified ∧ p.getUseTcp = true)) ∧
    (s.isConnected = true → ∀ (buf : ByteBuffer) (s1 : GameSocket σ ρ),
      encodePacket env s p {} (usesTcp protocol p) = (.ok (), buf, s1) →
      (usesTcp protocol p = true →
        sendPacket env s p protocol =
          sent ((s1.dumped p.getPacketId buf).tcpSendAll buf.data) ∧
        (sendPacket env s p protocol).2.calls = s1.calls ++ [.tcpSendAll buf.data]) ∧
      (usesTcp protocol p = false →
        sendPacket env s p protocol =
          sent ((s1.dumped p.getPacketId buf).udpSend buf.data) ∧
        (sendPacket env s p protocol).2.calls = s1.calls ++ [.udpSend buf.data])) ∧
    (s.isConnected = true → ∀ (e : String) (buf : ByteBuffer) (s1 : GameSocket σ ρ),
      encodePacket env s p {} (usesTcp protocol p) = (.err e, buf, s1) →
      sendPacket env s p protocol = (.err e, s1) ∧
      (sendPacket env s p protocol).2.calls = s.calls ++ [.encode p.getPacketId]) ∧
    sendPacketTCP env s p = sendPacket env s p .Tcp ∧
    sendPacketUDP env s p = sendPacket env s p .Udp := by
  refine ⟨fun hc => ?_, ?_, fun hc buf s1 he => ⟨fun ht => ?_, fun ht => ?_⟩,
    fun hc e buf s1 he => ?_, rfl, rfl⟩
  · simp [sendPacket, hc]
  · cases protocol <;> simp [usesTcp]
  · have h := sendPacket_connected env s p protocol hc
    rw [he] at h
    simp only [ht, if_true] at h
    refine ⟨h, ?_⟩
    rw [h, sent_calls, (tcpSendAll_calls _ _).1, (dumped_calls _ _ _).1]
  · have h := sendPacket_connected env s p protocol hc
    rw [he] at h
    simp only [ht, Bool.false_eq_true, if_false] at h
    refine ⟨h, ?_⟩
    rw [h, sent_calls, (udpSend_calls _ _).1, (dumped_calls _ _ _).1]
  · have h := sendPacket_connected env s p protocol hc
    rw [he] at h
    refine ⟨h, ?_⟩
    rw [h]
    have hs : (encodePacket env s p {} (usesTcp protocol p)).2.2 = s1 := by rw [he]
    rw [← hs]
    cases hp : p.getEncrypted <;> cases hb : s.cryptoBox <;>
      simp [encodePacket, hp, hb, record] at he ⊢

/-- C13, witness: on the connected demo socket the TCP-preferring packet `7` sent
with `Unspecified` goes out TCP-framed on the TCP stream, sent with `Udp` it goes
out unframed on the UDP socket; on the socket that is not connected the send
fails with nothing encoded or written. -/
theorem sendPacket_transport_witness :
    (sendPacket demoEnv demoBothSocket (rawPacket 7 false true [1, 2, 3]) .Unspecified).2.calls =
      [.encode 7, .tcpSendAll [6, 0, 0, 0, 7, 0, 0, 1, 2, 3]] ∧
    (sendPacket demoEnv demoBothSocket (rawPacket 7 false true [1, 2, 3]) .Udp).2.calls =
      [.encode 7, .udpSend [7, 0, 0, 1, 2, 3]] ∧
    sendPacket demoEnv demoSocket (rawPacket 7 false true [1, 2, 3]) .Udp =
      (.err "attempting to send a packet while disconnected", demoSocket) :=
  have h1 := (sendPacket_transport demoEnv demoBothSocket (rawPacket 7 false true [1, 2, 3])
    .Unspecified).2.2.1 rfl _ _ rfl
  have h2 := (sendPacket_transport demoEnv demoBothSocket (rawPacket 7 false true [1, 2, 3])
    .Udp).2.2.1 rfl _ _ rfl
  have h3 := (sendPacket_transport demoEnv demoSocket (rawPacket 7 false true [1, 2, 3])
    .Udp).1 rfl
  ⟨(h1.1 rfl).2, (h2.2 rfl).2, h3⟩

/-- The body of `sendPacketTo` for a packet without TCP preference, by the result
of `encodePacket`. -/
theorem GameSocket.sendPacketTo_udp (env : Env σ ρ) (s : GameSocket σ ρ) (p : Packet σ)
    (address : NetworkAddress) (hu : p.getUseTcp = false) :
    sendPacketTo env s p address =
      match encodePacket env s p {} false with
      | (.err e, _, s1) => (.err e, s1)
      | (.thrown w, _, s1) => (.thrown w, s1)
      | (.ok _, buf, s1) =>
        match (s1.dumped p.getPacketId buf).udpSendTo buf.data address with
        | (.error e, s2) => (.err e, s2)
        | (.ok res, s2) =>
          if res = buf.size then (.ok (), s2)
          else (.err "failed to send the entire buffer", s2) := by
  unfold sendPacketTo
  simp only [hu, Bool.false_eq_true, if_false]
  rcases encodePacket env s p {} false with ⟨_ | _ | _, buf, s1⟩ <;> rfl

/-- C14: `sendPacketTo`.  A packet with TCP preference: the call fails and the
state is untouched (nothing encoded, nothing sent).  Otherwise the packet is
encoded without length field (`tcp = false`), and the call succeeds if and only
if the encode succeeded and `sendTo` succeeded with a byte count equal to the
size of the encoded buffer; after a successful encode exactly one `sendTo` is
made, whatever it reports (no retry), and a smaller count gives the "failed to
send the entire buffer" error.  Nothing depends on the socket being connected. -/
theorem sendPacketTo_result (env : Env σ ρ) (s : GameSocket σ ρ) (p : Packet σ)
    (address : NetworkAddress) :
    (p.getUseTcp = true →
      sendPacketTo env s p address =
        (.err "cannot send a TCP packet to a UDP connection", s)) ∧
    (p.getUseTcp = false →
      ((sendPacketTo env s p address).1 = .ok () ↔
        ∃ buf s1, encodePacket env s p {} false = (.ok (), buf, s1) ∧
          ((s1.dumped p.getPacketId buf).udpSendTo buf.data address).1 = .ok buf.size) ∧
      (∀ (buf : ByteBuffer) (s1 : GameSocket σ ρ),
        encodePacket env s p {} false = (.ok (), buf, s1) →
        (sendPacketTo env s p address).2.calls = s1.calls ++ [.udpSendTo buf.data address] ∧
        (∀ n, ((s1.dumped p.getPacketId buf).udpSendTo buf.data address).1 = .ok n →
          n ≠ buf.size →
          (sendPacketTo env s p address).1 = .err "failed to send the entire buffer")) ∧
      (∀ (e : String) (buf : ByteBuffer) (s1 : GameSocket σ ρ),
        encodePacket env s p {} false = (.err e, buf, s1) →
        sendPacketTo env s p address = (.err e, s1))) := by
  refine ⟨fun ht => ?_, fun hu => ?_⟩
  · simp [sendPacketTo, ht]
  · have h := sendPacketTo_udp env s p address hu
    rw [h]
    rcases he : encodePacket env s p {} false with ⟨_ | e | w, buf, s1⟩
    · have hc := (udpSendTo_calls (s1.dumped p.getPacketId buf) buf.data address).1
      rw [(dumped_calls _ _ _).1] at hc
      rcases hx : (s1.dumped p.getPacketId buf).udpSendTo buf.data address with ⟨e2 | n, s2⟩
      · rw [hx] at hc
        simp only [] at hc
        simp [hx, hc]
      · rw [hx] at hc
        simp only [] at hc
        by_cases hn : n = buf.size
        · subst hn
          simp [hx, hc]
          exact ⟨buf, s1, ⟨rfl, rfl⟩, by rw [hx]⟩
        · simp [hx, hn, hc]
    · simp
    · simp

/-- C14 witness: a socket that was never connected sends the UDP packet 9 to
address 5 with one `sendTo` of the whole encoded buffer; when the operating
system reports two bytes sent the call fails; a TCP packet is refused. -/
theorem sendPacketTo_result_witness :
    (rawPacket 9 false false [1, 2, 3]).getUseTcp = false ∧
    demoSocket.isConnected = false ∧
    (sendPacketTo demoEnv demoSocket (rawPacket 9 false false [1, 2, 3]) 5).1 = .ok () ∧
    (sendPacketTo demoEnv demoSocket (rawPacket 9 false false [1, 2, 3]) 5).2.calls =
      [.encode 9, .udpSendTo [9, 0, 0, 1, 2, 3] 5] ∧
    (sendPacketTo demoEnv
      { demoSocket with udpSocket := { sendToOutcomes := [.ok 2] } }
      (rawPacket 9 false false [1, 2, 3]) 5).1 = .err "failed to send the entire buffer" ∧
    sendPacketTo demoEnv demoSocket (rawPacket 7 false true [1, 2, 3]) 5 =
      (.err "cannot send a TCP packet to a UDP connection", demoSocket) :=
  ⟨rfl, rfl, by decide, by decide, by decide,
    (sendPacketTo_result demoEnv demoSocket (rawPacket 7 false true [1, 2, 3]) 5).1 rfl⟩

theorem GameSocket.Quiet.same (s : GameSocket σ ρ) : Quiet s s := ⟨rfl, rfl⟩

theorem GameSocket.Quiet.andThen {s t u : GameSocket σ ρ} (h1 : Quiet s t) (h2 : Quiet t u) :
    Quiet s u := ⟨h2.1.trans h1.1, h2.2.trans h1.2⟩

theorem GameSocket.Quiet.recorded (s : GameSocket σ ρ) (c : Call) (h : c.isWait = false) :
    Quiet s (s.record c) := by
  simp [Quiet, waits, GameSocket.record, List.filter_append, h]

theorem GameSocket.Quiet.logged_nil {s t : GameSocket σ ρ} (h : Logged s t)
    (hc : t.calls = s.calls) : Quiet s t := by
  simp [Quiet, waits, h.2.2.2.1, hc]

theorem GameSocket.decodeMessage_quiet (s : GameSocket σ ρ) (header : PacketHeader)
    (packet : Packet σ) (b : ByteBuffer) : Quiet s (decodeMessage s header packet b).2 := by
  rw [decodeMessage_state]
  refine Quiet.andThen ?_ (Quiet.recorded _ _ rfl)
  split
  · exact ⟨rfl, rfl⟩
  · exact Quiet.same _

theorem GameSocket.decodePacket_quiet (env : Env σ ρ) (s : GameSocket σ ρ) (b : ByteBuffer) :
    Quiet s (decodePacket env s b).2 := by
  cases hh : b.readPacketHeader with
  | error e =>
    simp only [decodePacket, hh]
    exact Quiet.same _
  | ok hb =>
    obtain ⟨header, buffer⟩ := hb
    cases hm : env.matchPacket header.id with
    | none =>
      rw [decodePacket_unknown env s b buffer header hh hm]
      exact Quiet.recorded _ _ rfl
    | some packet =>
      cases he : header.encrypted with
      | false =>
        cases hp : packet.getEncrypted with
        | false =>
          rw [decodePacket_clear env s b buffer header packet hh hm he hp]
          exact (Quiet.recorded s (.matchPacket header.id) rfl).andThen (decodeMessage_quiet _ _ _ _)
        | true =>
          rw [decodePacket_downgrade env s b buffer header packet hh hm hp he]
          exact Quiet.recorded _ _ rfl
      | true =>
        cases hc : s.cryptoBox with
        | none =>
          rw [decodePacket_nobox env s b buffer header packet hh hm he hc]
          exact Quiet.recorded _ _ rfl
        | some box =>
          rw [decodePacket_sealed env s b buffer header packet box hh hm he hc]
          split
          · exact (Quiet.recorded s (.matchPacket header.id) rfl).andThen
              (Quiet.recorded _ (.decryptInPlace _ _) rfl)
          · exact ((Quiet.recorded s (.matchPacket header.id) rfl).andThen
              (Quiet.recorded _ (.decryptInPlace _ _) rfl)).andThen (decodeMessage_quiet _ _ _ _)

theorem GameSocket.encodePacket_quiet (env : Env σ ρ) (s : GameSocket σ ρ) (p : Packet σ)
    (b : ByteBuffer) (tcp : Bool) : Quiet s (encodePacket env s p b tcp).2.2 := by
  cases he : p.getEncrypted <;> cases hc : s.cryptoBox <;>
    simp [encodePacket, he, hc, record, Quiet, waits, List.filter_append, Call.isWait]

theorem GameSocket.decodeMessage_decoded (env : Env σ ρ) (s t : GameSocket σ ρ)
    (header : PacketHeader) (packet pkt : Packet σ) (b : ByteBuffer) (id : Nat)
    (hm : env.matchPacket id = some packet)
    (h : decodeMessage s header packet b = (.ok pkt, t)) : Decoded env pkt := by
  cases hd : packet.decode packet.fields b with
  | error e => simp [decodeMessage, hd] at h
  | ok f =>
    simp [decodeMessage, hd] at h
    exact ⟨id, packet, b, f, hm, hd, h.1.symm⟩

theorem GameSocket.decodePacket_decoded (env : Env σ ρ) (s t : GameSocket σ ρ) (b : ByteBuffer)
    (pkt : Packet σ) (h : decodePacket env s b = (.ok pkt, t)) : Decoded env pkt := by
  cases hh : b.readPacketHeader with
  | error e => simp [decodePacket, hh] at h
  | ok hb =>
    obtain ⟨header, buffer⟩ := hb
    cases hm : env.matchPacket header.id with
    | none =>
      rw [decodePacket_unknown env s b buffer header hh hm] at h
      simp at h
    | some packet =>
      cases he : header.encrypted with
      | false =>
        cases hp : packet.getEncrypted with
        | false =>
          rw [decodePacket_clear env s b buffer header packet hh hm he hp] at h
          exact decodeMessage_decoded env _ _ _ _ _ _ _ hm h
        | true =>
          rw [decodePacket_downgrade env s b buffer header packet hh hm hp he] at h
          simp at h
      | true =>
        cases hc : s.cryptoBox with
        | none =>
          rw [decodePacket_nobox env s b buffer header packet hh hm he hc] at h
          simp at h
        | some box =>
          rw [decodePacket_sealed env s b buffer header packet box hh hm he hc] at h
          split at h
          · simp at h
          · exact decodeMessage_decoded env _ _ _ _ _ _ _ hm h

theorem GameSocket.tcpRecvExact_quiet (s : GameSocket σ ρ) (n : Nat) :
    Quiet s (s.tcpRecvExact n).2 := by
  unfold tcpRecvExact
  simp only [record]
  split <;> simp [Quiet, waits, List.filter_append, Call.isWait]

theorem GameSocket.udpReceive_quiet (s : GameSocket σ ρ) : Quiet s s.udpReceive.2 := by
  unfold udpReceive
  simp only [record]
  split <;> simp [Quiet, waits, List.filter_append, Call.isWait]

theorem GameSocket.udpPoll_waits (s : GameSocket σ ρ) (t : Int) :
    (s.udpPoll t).2.cryptoBox = s.cryptoBox ∧
    (s.udpPoll t).2.calls = s.calls ++ [.udpPoll t] ∧
    (s.udpPoll t).2.waits = s.waits ++ [.udpPoll t] := by
  unfold udpPoll
  simp only [record]
  split <;> simp [waits, List.filter_append, Call.isWait]

theorem GameSocket.sysPoll_waits (s : GameSocket σ ρ) (tcp udp : Bool) (t : Int) :
    (s.sysPoll tcp udp t).2.cryptoBox = s.cryptoBox ∧
    (s.sysPoll tcp udp t).2.calls = s.calls ++ [.sysPoll tcp udp t] ∧
    (s.sysPoll tcp udp t).2.waits = s.waits ++ [.sysPoll tcp udp t] := by
  unfold sysPoll
  simp only [record]
  split <;> simp [waits, List.filter_append, Call.isWait]

theorem GameSocket.received_state (f : Bool) (x : Res (Packet σ) × GameSocket σ ρ) :
    (received f x).2 = x.2 := by
  rcases x with ⟨_ | _ | _, _⟩ <;> rfl

theorem GameSocket.received_ok (f : Bool) (x : Res (Packet σ) × GameSocket σ ρ)
    (out : Option (ReceivedPacket σ)) (t : GameSocket σ ρ) (h : received f x = (.ok out, t)) :
    ∃ pkt, x = (.ok pkt, t) ∧ out = some { packet := some pkt, fromConnected := f } := by
  rcases x with ⟨pkt | _ | _, u⟩ <;> simp [received] at h
  exact ⟨pkt, by rw [h.2], h.1.symm⟩

/-- The ways `recvPacketUDP` ends, `r` being the datagram received and `s1` the
state after the receive: a failure without decoding, the decoding of a buffer, or
an unfinished frame; the reassembler is only run on a frame. -/
theorem GameSocket.recvPacketUDP_cases (env : Env σ ρ) (s : GameSocket σ ρ) (skip : Bool) :
    (∃ e, recvPacketUDP env s skip = (.err e, s.udpReceive.2)) ∨
    (∃ b, recvPacketUDP env s skip =
      received s.udpReceive.1.fromServer (decodePacket env s.udpReceive.2 b)) ∨
    (∃ bs u e, recvPacketUDP env s skip =
      (.err e, { s.udpReceive.2.record (.pushFrameFromBuffer bs) with udpBuffer := u })) ∨
    (∃ bs u b, recvPacketUDP env s skip =
      received s.udpReceive.1.fromServer
        (decodePacket env
          { s.udpReceive.2.record (.pushFrameFromBuffer bs) with udpBuffer := u } b)) ∨
    (∃ bs u, recvPacketUDP env s skip =
      (.ok none, { s.udpReceive.2.record (.pushFrameFromBuffer bs) with udpBuffer := u })) := by
  unfold recvPacketUDP
  rcases s.udpReceive with ⟨r, s1⟩
  have wrap : ∀ (f : Bool) (x : Res (Packet σ) × GameSocket σ ρ),
      (match x with
        | (.err e, self) => ((.err e, self) : Res (Option (ReceivedPacket σ)) × GameSocket σ ρ)
        | (.thrown w, self) => (.thrown w, self)
        | (.ok packet, self) =>
          (.ok (some { packet := some packet, fromConnected := f }), self)) = received f x := by
    intro f x
    rcases x with ⟨_ | _ | _, _⟩ <;> rfl
  simp only [wrap]
  split
  · exact Or.inl ⟨_, rfl⟩
  · split
    · exact Or.inr (Or.inl ⟨_, rfl⟩)
    · split
      · exact Or.inl ⟨_, rfl⟩
      · split
        · exact Or.inr (Or.inl ⟨_, rfl⟩)
        · split
          · split
            · exact Or.inr (Or.inr (Or.inl ⟨_, _, _, rfl⟩))
            · split
              · exact Or.inr (Or.inr (Or.inr (Or.inl ⟨_, _, _, rfl⟩)))
              · exact Or.inr (Or.inr (Or.inr (Or.inr ⟨_, _, rfl⟩)))
          · exact Or.inl ⟨_, rfl⟩

theorem GameSocket.recvPacketUDP_quiet (env : Env σ ρ) (s : GameSocket σ ρ) (skip : Bool) :
    Quiet s (recvPacketUDP env s skip).2 := by
  have h1 := udpReceive_quiet s
  have hf : ∀ bs u, Quiet s
      { s.udpReceive.2.record (.pushFrameFromBuffer bs) with udpBuffer := u } := by
    intro bs u
    exact h1.andThen ((Quiet.recorded _ (.pushFrameFromBuffer bs) rfl).andThen ⟨rfl, rfl⟩)
  rcases recvPacketUDP_cases env s skip with ⟨e, h⟩ | ⟨b, h⟩ | ⟨bs, u, e, h⟩ | ⟨bs, u, b, h⟩ |
    ⟨bs, u, h⟩ <;> rw [h]
  · exact h1
  · rw [received_state]
    exact h1.andThen (decodePacket_quiet _ _ _)
  · exact hf bs u
  · rw [received_state]
    exact (hf bs u).andThen (decodePacket_quiet _ _ _)
  · exact hf bs u

theorem GameSocket.recvPacketUDP_decoded (env : Env σ ρ) (s t : GameSocket σ ρ) (skip : Bool)
    (out : ReceivedPacket σ) (h : recvPacketUDP env s skip = (.ok (some out), t)) :
    ∃ pkt, out.packet = some pkt ∧ Decoded env pkt := by
  rcases recvPacketUDP_cases env s skip with ⟨e, hc⟩ | ⟨b, hc⟩ | ⟨bs, u, e, hc⟩ |
    ⟨bs, u, b, hc⟩ | ⟨bs, u, hc⟩ <;> rw [hc] at h
  · simp at h
  · obtain ⟨pkt, hd, ho⟩ := received_ok _ _ _ _ h
    simp only [Option.some.injEq] at ho
    exact ⟨pkt, by rw [ho], decodePacket_decoded env _ _ _ _ hd⟩
  · simp at h
  · obtain ⟨pkt, hd, ho⟩ := received_ok _ _ _ _ h
    simp only [Option.some.injEq] at ho
    exact ⟨pkt, by rw [ho], decodePacket_decoded env _ _ _ _ hd⟩
  · simp at h

theorem GameSocket.recvPacketTCP_quiet (env : Env σ ρ) (s : GameSocket σ ρ) :
    Quiet s (recvPacketTCP env s).2 := by
  have h1 := tcpRecvExact_quiet s 4
  unfold recvPacketTCP
  rcases hr1 : s.tcpRecvExact 4 with ⟨r1, s1⟩
  rw [hr1] at h1
  cases r1 with
  | error e => exact h1
  | ok bytes =>
    simp only []
    split
    · split
      · rename_i e s2 heq
        have h2 : Quiet s1 s2 := by
          have h := congrArg Prod.snd heq
          simp only [] at h
          rw [← h]
          exact tcpRecvExact_quiet s1 _
        exact h1.andThen h2
      · rename_i bytes2 s2 heq
        have h2 : Quiet s1 s2 := by
          have h := congrArg Prod.snd heq
          simp only [] at h
          rw [← h]
          exact tcpRecvExact_quiet s1 _
        exact (h1.andThen h2).andThen (decodePacket_quiet env s2 _)
    · exact h1

theorem GameSocket.recvPacketTCP_decoded (env : Env σ ρ) (s t : GameSocket σ ρ)
    (pkt : Packet σ) (h : recvPacketTCP env s = (.ok pkt, t)) : Decoded env pkt := by
  unfold recvPacketTCP at h
  rcases hr1 : s.tcpRecvExact 4 with ⟨r1, s1⟩
  rw [hr1] at h
  cases r1 with
  | error e => simp at h
  | ok bytes =>
    simp only [] at h
    split at h
    · split at h
      · simp at h
      · exact decodePacket_decoded env _ _ _ _ h
    · simp at h

/-- The frame loop leaves the cipher alone, and every wait it records is a poll
of the UDP socket alone with a timeout of 25 ms, one for each round. -/
theorem GameSocket.recvPacketFrames_waits (env : Env σ ρ) (fuel : Nat) (s : GameSocket σ ρ) :
    (recvPacketFrames env fuel s).2.cryptoBox = s.cryptoBox ∧
    ∃ k, k ≤ fuel ∧ (0 < fuel → 0 < k) ∧
      (recvPacketFrames env fuel s).2.waits = s.waits ++ List.replicate k (.udpPoll 25) := by
  induction fuel generalizing s with
  | zero => exact ⟨rfl, 0, le_refl _, fun h => h, by simp [recvPacketFrames]⟩
  | succ n ih =>
    have h1 := udpPoll_waits s 25
    unfold recvPacketFrames
    rcases hp : s.udpPoll 25 with ⟨r, s1⟩
    rw [hp] at h1
    simp only [] at h1
    have one : ∀ t : GameSocket σ ρ, Quiet s1 t →
        t.cryptoBox = s.cryptoBox ∧
        ∃ k, k ≤ n + 1 ∧ (0 < n + 1 → 0 < k) ∧
          t.waits = s.waits ++ List.replicate k (.udpPoll 25) := by
      intro t ht
      exact ⟨ht.1.trans h1.1, 1, by omega, fun _ => by omega, by rw [ht.2, h1.2.2]; rfl⟩
    cases r with
    | error e => exact one s1 (Quiet.same _)
    | ok pollres =>
      cases pollres with
      | false => exact one s1 (Quiet.same _)
      | true =>
        have h2 := recvPacketUDP_quiet env s1 false
        simp only [Bool.not_true, Bool.false_eq_true, if_false]
        rcases hu : recvPacketUDP env s1 false with ⟨_ | _ | _, s2⟩ <;> rw [hu] at h2
        · rename_i v
          cases v with
          | none =>
            obtain ⟨hc, k, hk, _, hw⟩ := ih s2
            refine ⟨(hc.trans h2.1).trans h1.1, k + 1, by omega, fun _ => by omega, ?_⟩
            simp only [] at h2
            rw [hw, h2.2, h1.2.2, List.append_assoc]
            rfl
          | some out => exact one s2 h2
        · exact one s2 h2
        · exact one s2 h2

theorem GameSocket.recvPacketFrames_decoded (env : Env σ ρ) (fuel : Nat) (s t : GameSocket σ ρ)
    (out : ReceivedPacket σ) (h : recvPacketFrames env fuel s = (.ok out, t)) :
    ∃ pkt, out.packet = some pkt ∧ Decoded env pkt := by
  induction fuel generalizing s with
  | zero => simp [recvPacketFrames] at h
  | succ n ih =>
    unfold recvPacketFrames at h
    rcases hp : s.udpPoll 25 with ⟨r, s1⟩
    rw [hp] at h
    cases r with
    | error e => simp at h
    | ok pollres =>
      cases pollres with
      | false => simp at h
      | true =>
        simp only [Bool.not_true, Bool.false_eq_true, if_false] at h
        rcases hu : recvPacketUDP env s1 false with ⟨_ | _ | _, s2⟩ <;> rw [hu] at h
        · rename_i v
          cases v with
          | none => exact ih s2 h
          | some o =>
            simp only [Prod.mk.injEq, Res.ok.injEq] at h
            rw [← h.1]
            exact recvPacketUDP_decoded env s1 s2 false o hu
        · simp at h
        · simp at h

theorem GameSocket.poll_cryptoBox (env : Env σ ρ) (s : GameSocket σ ρ) (timeoutMs : Int) :
    (poll env s timeoutMs).2.cryptoBox = s.cryptoBox := by
  unfold poll
  split
  · have h := (udpPoll_waits s timeoutMs).1
    rcases hp : s.udpPoll timeoutMs with ⟨_ | _, s1⟩ <;> rw [hp] at h <;> exact h
  · have h := (sysPoll_waits s true true timeoutMs).1
    rcases hp : s.sysPoll true true timeoutMs with ⟨fds, s1⟩
    rw [hp] at h
    simp only []
    split
    · exact h
    · split
      · exact h
      · split
        · exact h
        · split <;> exact h

theorem GameSocket.pollProtocol_cryptoBox (env : Env σ ρ) (s : GameSocket σ ρ) (proto : Protocol)
    (timeoutMs : Int) : (pollProtocol env s proto timeoutMs).2.cryptoBox = s.cryptoBox := by
  unfold pollProtocol
  split
  · rfl
  · split
    · rfl
    · have h := (sysPoll_waits s (proto = Protocol.Tcp) (proto ≠ Protocol.Tcp) timeoutMs).1
      rcases hp : s.sysPoll (proto = Protocol.Tcp) (proto ≠ Protocol.Tcp) timeoutMs with ⟨fd, s1⟩
      rw [hp] at h
      simp only []
      split <;> exact h

theorem GameSocket.recvPacket_cryptoBox (env : Env σ ρ) (s : GameSocket σ ρ)
    (timeoutMs : Int) : (recvPacket env s timeoutMs).2.cryptoBox = s.cryptoBox := by
  have h1 := poll_cryptoBox env s timeoutMs
  unfold recvPacket
  rcases hp : poll env s timeoutMs with ⟨r | _ | _, s1⟩ <;> rw [hp] at h1
  · simp only []
    split
    · exact h1
    · split
      · have h2 := (recvPacketTCP_quiet env s1).1
        rcases ht : recvPacketTCP env s1 with ⟨_ | _ | _, s2⟩ <;> rw [ht] at h2 <;>
          exact h2.trans h1
      · have h2 := (recvPacketUDP_quiet env s1 false).1
        rcases hu : recvPacketUDP env s1 false with ⟨_ | _ | _, s2⟩ <;> rw [hu] at h2
        · rename_i v
          cases v with
          | none => exact ((recvPacketFrames_waits env _ s2).1.trans h2).trans h1
          | some out => exact h2.trans h1
        · exact h2.trans h1
        · exact h2.trans h1
  · exact h1
  · exact h1

theorem GameSocket.sendPacket_cryptoBox (env : Env σ ρ) (s : GameSocket σ ρ) (p : Packet σ)
    (protocol : Protocol) : (sendPacket env s p protocol).2.cryptoBox = s.cryptoBox := by
  cases hc : s.isConnected with
  | false => simp [sendPacket, hc]
  | true =>
    rw [sendPacket_connected env s p protocol hc]
    have h1 := (encodePacket_quiet env s p {} (usesTcp protocol p)).1
    rcases he : encodePacket env s p {} (usesTcp protocol p) with ⟨_ | _ | _, buf, s1⟩ <;>
      rw [he] at h1
    · simp only []
      split
      · rw [sent_calls, (tcpSendAll_calls _ _).2, (dumped_calls _ _ _).2]
        exact h1
      · rw [sent_calls, (udpSend_calls _ _).2, (dumped_calls _ _ _).2]
        exact h1
    · exact h1
    · exact h1

theorem GameSocket.sendPacketTo_cryptoBox (env : Env σ ρ) (s : GameSocket σ ρ) (p : Packet σ)
    (address : NetworkAddress) : (sendPacketTo env s p address).2.cryptoBox = s.cryptoBox := by
  cases hu : p.getUseTcp with
  | true => simp [sendPacketTo, hu]
  | false =>
    rw [sendPacketTo_udp env s p address hu]
    have h1 := (encodePacket_quiet env s p {} false).1
    rcases he : encodePacket env s p {} false with ⟨_ | _ | _, buf, s1⟩ <;> rw [he] at h1
    · simp only []
      have h2 := (udpSendTo_calls (s1.dumped p.getPacketId buf) buf.data address).2
      rw [(dumped_calls _ _ _).2] at h2
      rcases hx : (s1.dumped p.getPacketId buf).udpSendTo buf.data address with ⟨_ | n, s2⟩ <;>
        rw [hx] at h2
      · exact h2.trans h1
      · simp only []
        split <;> exact h2.trans h1
    · exact h1
    · exact h1

theorem GameSocket.sendRecoveryData_cryptoBox (s : GameSocket σ ρ) (accountId : Int)
    (secretKey : Nat) : (sendRecoveryData s accountId secretKey).2.cryptoBox = s.cryptoBox := by
  unfold sendRecoveryData
  simp only []
  have h := (tcpSendAll_calls s
    ((({} : ByteBuffer).writeI32 accountId).writeU32 secretKey).data).2
  rcases hx : s.tcpSendAll ((({} : ByteBuffer).writeI32 accountId).writeU32 secretKey).data with
    ⟨_ | _, s1⟩ <;> rw [hx] at h <;> exact h

theorem GameSocket.connect_cryptoBox (env : Env σ ρ) (s : GameSocket σ ρ)
    (address : NetworkAddress) (isRecovering : Bool) :
    (connect env s address isRecovering).2.cryptoBox = s.cryptoBox := by
  have h1 := (tcpConnect_calls s address).2.1
  unfold connect
  rcases hx : s.tcpConnect address with ⟨_ | _, s1⟩ <;> rw [hx] at h1
  · exact h1
  · simp only []
    have h2 := (udpConnect_calls s1 address).2.1
    rcases hy : s1.udpConnect address with ⟨_ | _, s2⟩ <;> rw [hy] at h2
    · exact h2.trans h1
    · simp only []
      have h3 := (tcpSend_calls s2
        [if isRecovering then env.MARKER_CONN_RECOVERY else env.MARKER_CONN_INITIAL]).2.1
      rcases hz : s2.tcpSend
        [if isRecovering then env.MARKER_CONN_RECOVERY else env.MARKER_CONN_INITIAL] with
        ⟨_ | _, s3⟩ <;> rw [hz] at h3 <;> exact (h3.trans h2).trans h1

/-- C16: teardown by `disconnect`.  From every state, after `disconnect` both
sockets are closed and the reassembly state is cleared, by exactly the three
calls `tcpSocket.disconnect`, `udpSocket.disconnect`, `udpBuffer.clear` in this
order; the cipher is the one of the state before (`disconnect` does not discard
it), as are the logging switch and what the sockets hold.  A second `disconnect`
leaves every member as the first one left it. -/
theorem disconnect_teardown (env : Env σ ρ) (s : GameSocket σ ρ) :
    (disconnect env s).tcpSocket.connected = false ∧
    (disconnect env s).udpSocket.connected = false ∧
    (disconnect env s).isConnected = false ∧
    (disconnect env s).udpBuffer = env.cleared ∧
    (disconnect env s).cryptoBox = s.cryptoBox ∧
    (disconnect env s).dumpPackets = s.dumpPackets ∧
    (disconnect env s).calls = s.calls ++ [.tcpDisconnect, .udpDisconnect, .clearFrames] ∧
    (disconnect env (disconnect env s)).tcpSocket = (disconnect env s).tcpSocket ∧
    (disconnect env (disconnect env s)).udpSocket = (disconnect env s).udpSocket ∧
    (disconnect env (disconnect env s)).udpBuffer = (disconnect env s).udpBuffer ∧
    (disconnect env (disconnect env s)).cryptoBox = (disconnect env s).cryptoBox ∧
    (disconnect env (disconnect env s)).dumpPackets = (disconnect env s).dumpPackets ∧
    (disconnect env (disconnect env s)).sysPolls = (disconnect env s).sysPolls ∧
    (disconnect env (disconnect env s)).dumps = (disconnect env s).dumps := by
  simp [disconnect, tcpDisconnect, udpDisconnect, record, isConnected]

/-- C16 counterexample: a socket on which `createBox` installed a cipher still
has it after `disconnect`; only `cleanupBox` removes it. -/
theorem disconnect_keeps_cipher_counterexample :
    demoSecureSocket.cryptoBox.isSome = true ∧
    (disconnect demoEnv demoSecureSocket).cryptoBox.isSome = true ∧
    (disconnect demoEnv (disconnect demoEnv demoSecureSocket)).cryptoBox.isSome = true ∧
    (cleanupBox (disconnect demoEnv demoSecureSocket)).cryptoBox.isSome = false :=
  ⟨rfl, rfl, rfl, rfl⟩

/-- C16 witness: the connected socket `demoBothSocket` after `disconnect`. -/
theorem disconnect_teardown_witness :
    demoBothSocket.isConnected = true ∧
    (disconnect demoEnv demoBothSocket).isConnected = false ∧
    (disconnect demoEnv demoBothSocket).udpSocket.connected = false ∧
    (disconnect demoEnv demoBothSocket).calls =
      [.tcpDisconnect, .udpDisconnect, .clearFrames] :=
  have h := disconnect_teardown demoEnv demoBothSocket
  ⟨rfl, h.2.2.1, h.2.1, h.2.2.2.2.2.2.1⟩

/-- C17: cipher frame.  `createBox` installs a cipher and `cleanupBox` removes
it, whatever was there; every send operation, every receive operation, both
polls, `encodePacket` and `decodePacket` return, on success and on failure, a
state with the cipher of the state they were called in; so do `connect`,
`disconnect` and `togglePacketLogging`. -/
theorem cryptoBox_frame (env : Env σ ρ) (s : GameSocket σ ρ) (p : Packet σ)
    (protocol : Protocol) (address : NetworkAddress) (accountId : Int) (secretKey : Nat)
    (timeoutMs : Int) (skipMarker isRecovering state : Bool) (buffer : ByteBuffer) (tcp : Bool) :
    (createBox env s).cryptoBox = some env.newBox ∧
    (cleanupBox s).cryptoBox = none ∧
    (sendPacket env s p protocol).2.cryptoBox = s.cryptoBox ∧
    (sendPacketTCP env s p).2.cryptoBox = s.cryptoBox ∧
    (sendPacketUDP env s p).2.cryptoBox = s.cryptoBox ∧
    (sendPacketTo env s p address).2.cryptoBox = s.cryptoBox ∧
    (sendRecoveryData s accountId secretKey).2.cryptoBox = s.cryptoBox ∧
    (recvPacket env s timeoutMs).2.cryptoBox = s.cryptoBox ∧
    (recvPacketTCP env s).2.cryptoBox = s.cryptoBox ∧
    (recvPacketUDP env s skipMarker).2.cryptoBox = s.cryptoBox ∧
    (poll env s timeoutMs).2.cryptoBox = s.cryptoBox ∧
    (pollProtocol env s protocol timeoutMs).2.cryptoBox = s.cryptoBox ∧
    (encodePacket env s p buffer tcp).2.2.cryptoBox = s.cryptoBox ∧
    (decodePacket env s buffer).2.cryptoBox = s.cryptoBox ∧
    (connect env s address isRecovering).2.cryptoBox = s.cryptoBox ∧
    (disconnect env s).cryptoBox = s.cryptoBox ∧
    (togglePacketLogging s state).cryptoBox = s.cryptoBox :=
  ⟨rfl, rfl, sendPacket_cryptoBox env s p protocol, sendPacket_cryptoBox env s p .Tcp,
    sendPacket_cryptoBox env s p .Udp, sendPacketTo_cryptoBox env s p address,
    sendRecoveryData_cryptoBox s accountId secretKey, recvPacket_cryptoBox env s timeoutMs,
    (recvPacketTCP_quiet env s).1, (recvPacketUDP_quiet env s skipMarker).1,
    poll_cryptoBox env s timeoutMs, pollProtocol_cryptoBox env s protocol timeoutMs,
    (encodePacket_quiet env s p buffer tcp).1, (decodePacket_quiet env s buffer).1,
    connect_cryptoBox env s address isRecovering, rfl, rfl⟩

/-- C17 witness: on the socket with a cipher an encrypted datagram is sent and a
failing receive is made, and the cipher is still installed; on the socket
without one a failing encrypted send installs none. -/
theorem cryptoBox_frame_witness :
    (sendPacketTo demoEnv demoSecureSocket demoPacket 5).1 = .ok () ∧
    (sendPacketTo demoEnv demoSecureSocket demoPacket 5).2.cryptoBox = some demoBox ∧
    (recvPacket demoEnv demoSecureSocket 100).1 = .err "timed out" ∧
    (recvPacket demoEnv demoSecureSocket 100).2.cryptoBox = some demoBox ∧
    (sendPacketTo demoEnv demoSocket demoPacket 5).1.isErr = true ∧
    (sendPacketTo demoEnv demoSocket demoPacket 5).2.cryptoBox = none :=
  have h := cryptoBox_frame demoEnv demoSecureSocket demoPacket .Udp 5 0 0 100 false false false
    {} false
  have h0 := cryptoBox_frame demoEnv demoSocket demoPacket .Udp 5 0 0 100 false false false
    {} false
  ⟨by decide, h.2.2.2.2.2.1, rfl, h.2.2.2.2.2.2.2.1, by decide, h0.2.2.2.2.2.1⟩

/-- One round of the frame loop, by the result of its poll and of its receive,
for fuel that exceeds the number of poll results to come. -/
theorem GameSocket.recvPacketFrames_round (env : Env σ ρ) (u : GameSocket σ ρ) (n : Nat)
    (hn : u.udpSocket.polls.length < n) :
    (∀ e u1, u.udpPoll 25 = (.error e, u1) → recvPacketFrames env n u = (.err e, u1)) ∧
    (∀ u1, u.udpPoll 25 = (.ok false, u1) →
      recvPacketFrames env n u = (.err "timed out", u1)) ∧
    (∀ u1, u.udpPoll 25 = (.ok true, u1) →
      (∀ out v, recvPacketUDP env u1 false = (.ok (some out), v) →
        recvPacketFrames env n u = (.ok out, v)) ∧
      (∀ e v, recvPacketUDP env u1 false = (.err e, v) →
        recvPacketFrames env n u = (.err ("recvPacketUDP failed: " ++ e), v)) ∧
      (∀ w v, recvPacketUDP env u1 false = (.thrown w, v) →
        recvPacketFrames env n u = (.thrown w, v)) ∧
      (∀ v, recvPacketUDP env u1 false = (.ok none, v) →
        v.udpSocket.polls.length < u.udpSocket.polls.length ∧
        recvPacketFrames env n u =
          recvPacketFrames env (v.udpSocket.polls.length + 1) v)) := by
  cases n with
  | zero => omega
  | succ m =>
    refine ⟨fun e u1 hp => ?_, fun u1 hp => ?_, fun u1 hp => ⟨fun out v hu => ?_,
      fun e v hu => ?_, fun w v hu => ?_, fun v hu => ?_⟩⟩
    · simp [recvPacketFrames, hp]
    · simp [recvPacketFrames, hp]
    · simp [recvPacketFrames, hp, hu]
    · simp [recvPacketFrames, hp, hu]
    · simp [recvPacketFrames, hp, hu]
    · have h1 := (udpPoll_tcpSocket u 25).2
      rw [hp] at h1
      simp only [] at h1
      have h2 := (recvPacketUDP_tcpSocket env u1 false).2
      rw [hu] at h2
      simp only [] at h2
      have hnil : u.udpSocket.polls ≠ [] := by
        intro h0
        simp [udpPoll, record, h0] at hp
      have hpos : 0 < u.udpSocket.polls.length := List.length_pos.mpr hnil
      have hl : v.udpSocket.polls.length = u1.udpSocket.polls.length := congrArg List.length h2
      refine ⟨by omega, ?_⟩
      have hstep : recvPacketFrames env (m + 1) u = recvPacketFrames env m v := by
        simp [recvPacketFrames, hp, hu]
      rw [hstep]
      exact recvPacketFrames_fuel env m _ v (by omega) (by omega)

/-- C11: bounded fragment wait.  `s1` being the state after a poll that reported
the UDP socket alone and `s2` the state after a first datagram that was a frame
of an unfinished message, `recvPacket` is the frame loop run from `s2`, whatever
`timeoutMs` was.  Every wait this loop records is a poll of the UDP socket alone
with a timeout of 25 ms (there is at least one, and at most one more than there
are poll results to come).  In each round (the last clause, for every state `u`
the loop is in): a poll that reports not ready ends the call with "timed out", a
poll that fails ends it with that error; after a ready poll, a datagram that
completes a message ends the call with the packet, a datagram whose receive or
decode fails ends it with that failure behind "recvPacketUDP failed: " (a raised
failure is passed on as raised), and a further unfinished frame leaves a shorter
list of poll results and the loop run from there. -/
theorem recvPacket_fragment_wait (env : Env σ ρ) (s s1 s2 : GameSocket σ ρ) (timeoutMs : Int)
    (hpoll : poll env s timeoutMs = (.ok .Udp, s1))
    (hfrag : recvPacketUDP env s1 false = (.ok none, s2)) :
    recvPacket env s timeoutMs = recvPacketFrames env (s2.udpSocket.polls.length + 1) s2 ∧
    s2.waits = s1.waits ∧
    (∃ k, 0 < k ∧ k ≤ s2.udpSocket.polls.length + 1 ∧
      (recvPacket env s timeoutMs).2.waits = s2.waits ++ List.replicate k (.udpPoll 25)) ∧
    (∀ (u : GameSocket σ ρ) (n : Nat), u.udpSocket.polls.length < n →
      (∀ e u1, u.udpPoll 25 = (.error e, u1) → recvPacketFrames env n u = (.err e, u1)) ∧
      (∀ u1, u.udpPoll 25 = (.ok false, u1) →
        recvPacketFrames env n u = (.err "timed out", u1)) ∧
      (∀ u1, u.udpPoll 25 = (.ok true, u1) →
        (∀ out v, recvPacketUDP env u1 false = (.ok (some out), v) →
          recvPacketFrames env n u = (.ok out, v)) ∧
        (∀ e v, recvPacketUDP env u1 false = (.err e, v) →
          recvPacketFrames env n u = (.err ("recvPacketUDP failed: " ++ e), v)) ∧
        (∀ w v, recvPacketUDP env u1 false = (.thrown w, v) →
          recvPacketFrames env n u = (.thrown w, v)) ∧
        (∀ v, recvPacketUDP env u1 false = (.ok none, v) →
          v.udpSocket.polls.length < u.udpSocket.polls.length ∧
          recvPacketFrames env n u =
            recvPacketFrames env (v.udpSocket.polls.length + 1) v))) := by
  have hrecv : recvPacket env s timeoutMs =
      recvPacketFrames env (s2.udpSocket.polls.length + 1) s2 := by
    simp [recvPacket, hpoll, hfrag]
  have hq := recvPacketUDP_quiet env s1 false
  rw [hfrag] at hq
  obtain ⟨_, k, hk, hpos, hw⟩ := recvPacketFrames_waits env (s2.udpSocket.polls.length + 1) s2
  refine ⟨hrecv, hq.2, ⟨k, hpos (by omega), hk, ?_⟩, fun u n hn =>
    recvPacketFrames_round env u n hn⟩
  rw [hrecv]
  exact hw

/-- C11 witness: on a socket that is not connected `recvPacket(-1)` first waits
without bound; the first datagram is an unfinished frame, the one further wait is
a poll of the UDP socket with 25 ms, and the second frame completes packet `7`. -/
theorem recvPacket_fragment_wait_witness :
    (recvPacket demoEnv demoTwoFrameSocket (-1)).1 =
      .ok { packet := some (rawPacket 7 false true [5]), fromConnected := true } ∧
    (recvPacket demoEnv demoTwoFrameSocket (-1)).2.waits = [.udpPoll (-1), .udpPoll 25] ∧
    (recvPacket demoEnv { demoTwoFrameSocket with udpSocket :=
        { inbound := [⟨true, 4, [167, 0, 7, 0]⟩], polls := [.ok true] } } (-1)).1 =
      .err "timed out" := by
  have h := recvPacket_fragment_wait demoEnv demoTwoFrameSocket
    (poll demoEnv demoTwoFrameSocket (-1)).2
    (recvPacketUDP demoEnv (poll demoEnv demoTwoFrameSocket (-1)).2 false).2 (-1) rfl rfl
  refine ⟨?_, ?_, rfl⟩
  · rw [h.1]
    rfl
  · rw [h.1]
    rfl

/-- C19: a successful `recvPacket` carries a packet.  Whatever the polls and the
sockets deliver, when `recvPacket` returns `Ok` the packet of the result is
present, and it is fully decoded: an instance made by the registry, with the
fields its own `decode` read.  An unfinished frame (`Ok` without a value from
`recvPacketUDP`) is never returned: it leads into the frame loop. -/
theorem recvPacket_ok_carries_packet (env : Env σ ρ) (s t : GameSocket σ ρ) (timeoutMs : Int)
    (out : ReceivedPacket σ) (h : recvPacket env s timeoutMs = (.ok out, t)) :
    out.packet.isSome = true ∧ ∃ pkt, out.packet = some pkt ∧ Decoded env pkt := by
  have key : ∃ pkt, out.packet = some pkt ∧ Decoded env pkt := by
    unfold recvPacket at h
    rcases hp : poll env s timeoutMs with ⟨r | _ | _, s1⟩ <;> rw [hp] at h
    · simp only [] at h
      split at h
      · simp at h
      · split at h
        · rcases ht : recvPacketTCP env s1 with ⟨pkt | _ | _, s2⟩ <;> rw [ht] at h
          · simp only [Prod.mk.injEq, Res.ok.injEq] at h
            rw [← h.1]
            exact ⟨pkt, rfl, recvPacketTCP_decoded env s1 s2 pkt ht⟩
          · simp at h
          · simp at h
        · rcases hu : recvPacketUDP env s1 false with ⟨v | _ | _, s2⟩ <;> rw [hu] at h
          · cases v with
            | none => exact recvPacketFrames_decoded env _ s2 t out h
            | some o =>
              simp only [Prod.mk.injEq, Res.ok.injEq] at h
              rw [← h.1]
              exact recvPacketUDP_decoded env s1 s2 false o hu
          · simp at h
          · simp at h
    · simp at h
    · simp at h
  obtain ⟨pkt, hpkt, hd⟩ := key
  exact ⟨by rw [hpkt]; rfl, pkt, hpkt, hd⟩

/-- C19 witness: the packet read from the TCP stream of `demoBothSocket` is
present, and so is the one reassembled from the two frames of
`demoTwoFrameSocket`. -/
theorem recvPacket_ok_carries_packet_witness :
    ((recvPacket demoEnv demoBothSocket (-1)).1 =
        .ok { packet := some (rawPacket 7 false true [1, 2, 3]), fromConnected := true } ∧
      ∃ pkt, some (rawPacket 7 false true [1, 2, 3]) = some pkt ∧ Decoded demoEnv pkt) ∧
    ∃ pkt, some (rawPacket 7 false true [5]) = some pkt ∧ Decoded demoEnv pkt :=
  ⟨⟨rfl, (recvPacket_ok_carries_packet demoEnv demoBothSocket
      (recvPacket demoEnv demoBothSocket (-1)).2 (-1)
      { packet := some (rawPacket 7 false true [1, 2, 3]), fromConnected := true } rfl).2⟩,
    (recvPacket_ok_carries_packet demoEnv demoTwoFrameSocket
      (recvPacket demoEnv demoTwoFrameSocket (-1)).2 (-1)
      { packet := some (rawPacket 7 false true [5]), fromConnected := true } rfl).2⟩

end Globed
